import Mathlib

/-!
Verification of the coordinator-backend tile indexing engine.

The Python sources embedded here:
* `src/coordinator_backend/utils.py` — base-36 codec (`to_base36`, `from_base36`);
* `src/coordinator_backend/services/tiles.py` — `TileGrid`, `Tile`,
  `TileService.generate_tiles`, `TileService.tile_from_id`,
  `TileService.tile_for_coordinates`, `get_tile_size_from_level`;
* the fixed area constants (`MARCO_ZERO_X`, …) as given in the repository.

Python floats are modelled by exact rationals (every quantity the service
computes — `100000 / 2**level`, half-tile offsets, the floor/ceil grid bounds —
is exactly representable in binary floating point for the ranges reached, so
the rational model agrees with the float computation).  Python `int` is
modelled by `Int`/`Nat`.  Errors (`raise ValueError(...)`) are modelled by
`Except TileError` with one constructor per distinct raise site / spec error
kind.

The external `hilbertcurve` library is not part of the repository; the spec
(§4.4) specifies it only through its contract: a bijection between integer
points of `[0, 2^p) × [0, 2^p)` and distances `[0, 4^p)`.  It is modelled here
by a standard recursive 2-D Hilbert curve (`d2xy` / `xy2d`), for which that
contract is proved (`xy2d_d2xy`, `d2xy_xy2d`, `d2xy_lt`, `xy2d_lt`).
Likewise the external `pyproj` projection pair is specified (§6) as a pair of
exact mutual inverses; `tile_for_coordinates` is therefore modelled at the
planar (easting/northing) entry point, after the projection boundary.
-/

set_option maxRecDepth 16384

namespace CoordinatorBackend

/-! ## Fixed configuration constants (src/coordinator_backend/constants.py) -/

def MARCO_ZERO_X : ℚ := 5000000
def MARCO_ZERO_Y : ℚ := 10000000
def X_MIN_AREA : ℚ := 2290000
def Y_MIN_AREA : ℚ := 6300000
def X_MAX_AREA : ℚ := 7330000
def Y_MAX_AREA : ℚ := 12300000

/-- Error kinds of the service, one per distinct `raise ValueError` site,
named per spec §7. -/
inductive TileError where
  /-- Python message: Level cannot be negative. -/
  | invalidLevel : TileError
  /-- Python messages: The value cannot be empty. / The value contains invalid Base36 characters. -/
  | invalidInput : TileError
  /-- Python message: Tile identifier is out of bounds for the specified level. -/
  | identifierOutOfRange : TileError
  /-- Python message: Tile identifier does not map to the configured area extent. -/
  | unmappedTile : TileError
  /-- Python message: Coordinates fall outside of the configured area extent. -/
  | coordinateOutOfArea : TileError
deriving DecidableEq, Repr

/-! ## Base-36 codec (src/coordinator_backend/utils.py) -/

/-- Python `string.digits + string.ascii_uppercase`. -/
def _BASE36_ALPHABET : List Char :=
  ['0', '1', '2', '3', '4', '5', '6', '7', '8', '9',
   'A', 'B', 'C', 'D', 'E', 'F', 'G', 'H', 'I', 'J', 'K', 'L', 'M',
   'N', 'O', 'P', 'Q', 'R', 'S', 'T', 'U', 'V', 'W', 'X', 'Y', 'Z']

/-- Digit accumulation loop of `to_base36` (least significant digit first).
The first argument is structural fuel; `n` itself is always enough fuel. -/
def toBase36Aux : Nat → Nat → List Char
  | 0, _ => []
  | fuel + 1, n =>
    if n = 0 then []
    else _BASE36_ALPHABET.getD (n % 36) '0' :: toBase36Aux fuel (n / 36)

/-- Python `to_base36` (utils.py).  The Python guard rejecting negative input
is absorbed by the `Nat` domain. -/
def to_base36 (number : Nat) : List Char :=
  if number = 0 then ['0'] else (toBase36Aux number number).reverse

/-- Code points stripped by Python `str.strip()` (CPython's
`Py_UNICODE_ISSPACE`, Unicode 14.0): ASCII whitespace, the separator
controls U+001C-U+001F and U+0085, and every Unicode space separator. -/
def pyWhitespace : List Nat :=
  [0x9, 0xa, 0xb, 0xc, 0xd, 0x1c, 0x1d, 0x1e, 0x1f, 0x20, 0x85, 0xa0,
   0x1680, 0x2000, 0x2001, 0x2002, 0x2003, 0x2004, 0x2005, 0x2006, 0x2007,
   0x2008, 0x2009, 0x200a, 0x2028, 0x2029, 0x202f, 0x205f, 0x3000]

/-- Whitespace test of Python `str.strip()`. -/
def isPySpace (c : Char) : Bool := pyWhitespace.contains c.toNat

/-- Python `str.strip()`: remove leading and trailing whitespace. -/
def pyStrip (l : List Char) : List Char :=
  ((l.dropWhile isPySpace).reverse.dropWhile isPySpace).reverse

set_option maxHeartbeats 1600000 in
/-- Full case mapping table of Python `str.upper()` (Unicode 14.0): every
code point whose uppercase form differs from itself, paired with the code
points of that form (one to three of them, e.g. U+00DF LATIN SMALL LETTER
SHARP S maps to "SS"); code points not listed upper-case to themselves.
The mapping is context-independent, so upper-casing a string is `flatMap`
of the per-character map. -/
def upperTable : List (Nat × List Nat) :=
  [(0x61, [0x41]),
   (0x62, [0x42]),
   (0x63, [0x43]),
   (0x64, [0x44]),
   (0x65, [0x45]),
   (0x66, [0x46]),
   (0x67, [0x47]),
   (0x68, [0x48]),
   (0x69, [0x49]),
   (0x6a, [0x4a]),
   (0x6b, [0x4b]),
   (0x6c, [0x4c]),
   (0x6d, [0x4d]),
   (0x6e, [0x4e]),
   (0x6f, [0x4f]),
   (0x70, [0x50]),
   (0x71, [0x51]),
   (0x72, [0x52]),
   (0x73, [0x53]),
   (0x74, [0x54]),
   (0x75, [0x55]),
   (0x76, [0x56]),
   (0x77, [0x57]),
   (0x78, [0x58]),
   (0x79, [0x59]),
   (0x7a, [0x5a]),
   (0xb5, [0x39c]),
   (0xdf, [0x53, 0x53]),
   (0xe0, [0xc0]),
   (0xe1, [0xc1]),
   (0xe2, [0xc2]),
   (0xe3, [0xc3]),
   (0xe4, [0xc4]),
   (0xe5, [0xc5]),
   (0xe6, [0xc6]),
   (0xe7, [0xc7]),
   (0xe8, [0xc8]),
   (0xe9, [0xc9]),
   (0xea, [0xca]),
   (0xeb, [0xcb]),
   (0xec, [0xcc]),
   (0xed, [0xcd]),
   (0xee, [0xce]),
   (0xef, [0xcf]),
   (0xf0, [0xd0]),
   (0xf1, [0xd1]),
   (0xf2, [0xd2]),
   (0xf3, [0xd3]),
   (0xf4, [0xd4]),
   (0xf5, [0xd5]),
   (0xf6, [0xd6]),
   (0xf8, [0xd8]),
   (0xf9, [0xd9]),
   (0xfa, [0xda]),
   (0xfb, [0xdb]),
   (0xfc, [0xdc]),
   (0xfd, [0xdd]),
   (0xfe, [0xde]),
   (0xff, [0x178]),
   (0x101, [0x100]),
   (0x103, [0x102]),
   (0x105, [0x104]),
   (0x107, [0x106]),
   (0x109, [0x108]),
   (0x10b, [0x10a]),
   (0x10d, [0x10c]),
   (0x10f, [0x10e]),
   (0x111, [0x110]),
   (0x113, [0x112]),
   (0x115, [0x114]),
   (0x117, [0x116]),
   (0x119, [0x118]),
   (0x11b, [0x11a]),
   (0x11d, [0x11c]),
   (0x11f, [0x11e]),
   (0x121, [0x120]),
   (0x123, [0x122]),
   (0x125, [0x124]),
   (0x127, [0x126]),
   (0x129, [0x128]),
   (0x12b, [0x12a]),
   (0x12d, [0x12c]),
   (0x12f, [0x12e]),
   (0x131, [0x49]),
   (0x133, [0x132]),
   (0x135, [0x134]),
   (0x137, [0x136]),
   (0x13a, [0x139]),
   (0x13c, [0x13b]),
   (0x13e, [0x13d]),
   (0x140, [0x13f]),
   (0x142, [0x141]),
   (0x144, [0x143]),
   (0x146, [0x145]),
   (0x148, [0x147]),
   (0x149, [0x2bc, 0x4e]),
   (0x14b, [0x14a]),
   (0x14d, [0x14c]),
   (0x14f, [0x14e]),
   (0x151, [0x150]),
   (0x153, [0x152]),
   (0x155, [0x154]),
   (0x157, [0x156]),
   (0x159, [0x158]),
   (0x15b, [0x15a]),
   (0x15d, [0x15c]),
   (0x15f, [0x15e]),
   (0x161, [0x160]),
   (0x163, [0x162]),
   (0x165, [0x164]),
   (0x167, [0x166]),
   (0x169, [0x168]),
   (0x16b, [0x16a]),
   (0x16d, [0x16c]),
   (0x16f, [0x16e]),
   (0x171, [0x170]),
   (0x173, [0x172]),
   (0x175, [0x174]),
   (0x177, [0x176]),
   (0x17a, [0x179]),
   (0x17c, [0x17b]),
   (0x17e, [0x17d]),
   (0x17f, [0x53]),
   (0x180, [0x243]),
   (0x183, [0x182]),
   (0x185, [0x184]),
   (0x188, [0x187]),
   (0x18c, [0x18b]),
   (0x192, [0x191]),
   (0x195, [0x1f6]),
   (0x199, [0x198]),
   (0x19a, [0x23d]),
   (0x19e, [0x220]),
   (0x1a1, [0x1a0]),
   (0x1a3, [0x1a2]),
   (0x1a5, [0x1a4]),
   (0x1a8, [0x1a7]),
   (0x1ad, [0x1ac]),
   (0x1b0, [0x1af]),
   (0x1b4, [0x1b3]),
   (0x1b6, [0x1b5]),
   (0x1b9, [0x1b8]),
   (0x1bd, [0x1bc]),
   (0x1bf, [0x1f7]),
   (0x1c5, [0x1c4]),
   (0x1c6, [0x1c4]),
   (0x1c8, [0x1c7]),
   (0x1c9, [0x1c7]),
   (0x1cb, [0x1ca]),
   (0x1cc, [0x1ca]),
   (0x1ce, [0x1cd]),
   (0x1d0, [0x1cf]),
   (0x1d2, [0x1d1]),
   (0x1d4, [0x1d3]),
   (0x1d6, [0x1d5]),
   (0x1d8, [0x1d7]),
   (0x1da, [0x1d9]),
   (0x1dc, [0x1db]),
   (0x1dd, [0x18e]),
   (0x1df, [0x1de]),
   (0x1e1, [0x1e0]),
   (0x1e3, [0x1e2]),
   (0x1e5, [0x1e4]),
   (0x1e7, [0x1e6]),
   (0x1e9, [0x1e8]),
   (0x1eb, [0x1ea]),
   (0x1ed, [0x1ec]),
   (0x1ef, [0x1ee]),
   (0x1f0, [0x4a, 0x30c]),
   (0x1f2, [0x1f1]),
   (0x1f3, [0x1f1]),
   (0x1f5, [0x1f4]),
   (0x1f9, [0x1f8]),
   (0x1fb, [0x1fa]),
   (0x1fd, [0x1fc]),
   (0x1ff, [0x1fe]),
   (0x201, [0x200]),
   (0x203, [0x202]),
   (0x205, [0x204]),
   (0x207, [0x206]),
   (0x209, [0x208]),
   (0x20b, [0x20a]),
   (0x20d, [0x20c]),
   (0x20f, [0x20e]),
   (0x211, [0x210]),
   (0x213, [0x212]),
   (0x215, [0x214]),
   (0x217, [0x216]),
   (0x219, [0x218]),
   (0x21b, [0x21a]),
   (0x21d, [0x21c]),
   (0x21f, [0x21e]),
   (0x223, [0x222]),
   (0x225, [0x224]),
   (0x227, [0x226]),
   (0x229, [0x228]),
   (0x22b, [0x22a]),
   (0x22d, [0x22c]),
   (0x22f, [0x22e]),
   (0x231, [0x230]),
   (0x233, [0x232]),
   (0x23c, [0x23b]),
   (0x23f, [0x2c7e]),
   (0x240, [0x2c7f]),
   (0x242, [0x241]),
   (0x247, [0x246]),
   (0x249, [0x248]),
   (0x24b, [0x24a]),
   (0x24d, [0x24c]),
   (0x24f, [0x24e]),
   (0x250, [0x2c6f]),
   (0x251, [0x2c6d]),
   (0x252, [0x2c70]),
   (0x253, [0x181]),
   (0x254, [0x186]),
   (0x256, [0x189]),
   (0x257, [0x18a]),
   (0x259, [0x18f]),
   (0x25b, [0x190]),
   (0x25c, [0xa7ab]),
   (0x260, [0x193]),
   (0x261, [0xa7ac]),
   (0x263, [0x194]),
   (0x265, [0xa78d]),
   (0x266, [0xa7aa]),
   (0x268, [0x197]),
   (0x269, [0x196]),
   (0x26a, [0xa7ae]),
   (0x26b, [0x2c62]),
   (0x26c, [0xa7ad]),
   (0x26f, [0x19c]),
   (0x271, [0x2c6e]),
   (0x272, [0x19d]),
   (0x275, [0x19f]),
   (0x27d, [0x2c64]),
   (0x280, [0x1a6]),
   (0x282, [0xa7c5]),
   (0x283, [0x1a9]),
   (0x287, [0xa7b1]),
   (0x288, [0x1ae]),
   (0x289, [0x244]),
   (0x28a, [0x1b1]),
   (0x28b, [0x1b2]),
   (0x28c, [0x245]),
   (0x292, [0x1b7]),
   (0x29d, [0xa7b2]),
   (0x29e, [0xa7b0]),
   (0x345, [0x399]),
   (0x371, [0x370]),
   (0x373, [0x372]),
   (0x377, [0x376]),
   (0x37b, [0x3fd]),
   (0x37c, [0x3fe]),
   (0x37d, [0x3ff]),
   (0x390, [0x399, 0x308, 0x301]),
   (0x3ac, [0x386]),
   (0x3ad, [0x388]),
   (0x3ae, [0x389]),
   (0x3af, [0x38a]),
   (0x3b0, [0x3a5, 0x308, 0x301]),
   (0x3b1, [0x391]),
   (0x3b2, [0x392]),
   (0x3b3, [0x393]),
   (0x3b4, [0x394]),
   (0x3b5, [0x395]),
   (0x3b6, [0x396]),
   (0x3b7, [0x397]),
   (0x3b8, [0x398]),
   (0x3b9, [0x399]),
   (0x3ba, [0x39a]),
   (0x3bb, [0x39b]),
   (0x3bc, [0x39c]),
   (0x3bd, [0x39d]),
   (0x3be, [0x39e]),
   (0x3bf, [0x39f]),
   (0x3c0, [0x3a0]),
   (0x3c1, [0x3a1]),
   (0x3c2, [0x3a3]),
   (0x3c3, [0x3a3]),
   (0x3c4, [0x3a4]),
   (0x3c5, [0x3a5]),
   (0x3c6, [0x3a6]),
   (0x3c7, [0x3a7]),
   (0x3c8, [0x3a8]),
   (0x3c9, [0x3a9]),
   (0x3ca, [0x3aa]),
   (0x3cb, [0x3ab]),
   (0x3cc, [0x38c]),
   (0x3cd, [0x38e]),
   (0x3ce, [0x38f]),
   (0x3d0, [0x392]),
   (0x3d1, [0x398]),
   (0x3d5, [0x3a6]),
   (0x3d6, [0x3a0]),
   (0x3d7, [0x3cf]),
   (0x3d9, [0x3d8]),
   (0x3db, [0x3da]),
   (0x3dd, [0x3dc]),
   (0x3df, [0x3de]),
   (0x3e1, [0x3e0]),
   (0x3e3, [0x3e2]),
   (0x3e5, [0x3e4]),
   (0x3e7, [0x3e6]),
   (0x3e9, [0x3e8]),
   (0x3eb, [0x3ea]),
   (0x3ed, [0x3ec]),
   (0x3ef, [0x3ee]),
   (0x3f0, [0x39a]),
   (0x3f1, [0x3a1]),
   (0x3f2, [0x3f9]),
   (0x3f3, [0x37f]),
   (0x3f5, [0x395]),
   (0x3f8, [0x3f7]),
   (0x3fb, [0x3fa]),
   (0x430, [0x410]),
   (0x431, [0x411]),
   (0x432, [0x412]),
   (0x433, [0x413]),
   (0x434, [0x414]),
   (0x435, [0x415]),
   (0x436, [0x416]),
   (0x437, [0x417]),
   (0x438, [0x418]),
   (0x439, [0x419]),
   (0x43a, [0x41a]),
   (0x43b, [0x41b]),
   (0x43c, [0x41c]),
   (0x43d, [0x41d]),
   (0x43e, [0x41e]),
   (0x43f, [0x41f]),
   (0x440, [0x420]),
   (0x441, [0x421]),
   (0x442, [0x422]),
   (0x443, [0x423]),
   (0x444, [0x424]),
   (0x445, [0x425]),
   (0x446, [0x426]),
   (0x447, [0x427]),
   (0x448, [0x428]),
   (0x449, [0x429]),
   (0x44a, [0x42a]),
   (0x44b, [0x42b]),
   (0x44c, [0x42c]),
   (0x44d, [0x42d]),
   (0x44e, [0x42e]),
   (0x44f, [0x42f]),
   (0x450, [0x400]),
   (0x451, [0x401]),
   (0x452, [0x402]),
   (0x453, [0x403]),
   (0x454, [0x404]),
   (0x455, [0x405]),
   (0x456, [0x406]),
   (0x457, [0x407]),
   (0x458, [0x408]),
   (0x459, [0x409]),
   (0x45a, [0x40a]),
   (0x45b, [0x40b]),
   (0x45c, [0x40c]),
   (0x45d, [0x40d]),
   (0x45e, [0x40e]),
   (0x45f, [0x40f]),
   (0x461, [0x460]),
   (0x463, [0x462]),
   (0x465, [0x464]),
   (0x467, [0x466]),
   (0x469, [0x468]),
   (0x46b, [0x46a]),
   (0x46d, [0x46c]),
   (0x46f, [0x46e]),
   (0x471, [0x470]),
   (0x473, [0x472]),
   (0x475, [0x474]),
   (0x477, [0x476]),
   (0x479, [0x478]),
   (0x47b, [0x47a]),
   (0x47d, [0x47c]),
   (0x47f, [0x47e]),
   (0x481, [0x480]),
   (0x48b, [0x48a]),
   (0x48d, [0x48c]),
   (0x48f, [0x48e]),
   (0x491, [0x490]),
   (0x493, [0x492]),
   (0x495, [0x494]),
   (0x497, [0x496]),
   (0x499, [0x498]),
   (0x49b, [0x49a]),
   (0x49d, [0x49c]),
   (0x49f, [0x49e]),
   (0x4a1, [0x4a0]),
   (0x4a3, [0x4a2]),
   (0x4a5, [0x4a4]),
   (0x4a7, [0x4a6]),
   (0x4a9, [0x4a8]),
   (0x4ab, [0x4aa]),
   (0x4ad, [0x4ac]),
   (0x4af, [0x4ae]),
   (0x4b1, [0x4b0]),
   (0x4b3, [0x4b2]),
   (0x4b5, [0x4b4]),
   (0x4b7, [0x4b6]),
   (0x4b9, [0x4b8]),
   (0x4bb, [0x4ba]),
   (0x4bd, [0x4bc]),
   (0x4bf, [0x4be]),
   (0x4c2, [0x4c1]),
   (0x4c4, [0x4c3]),
   (0x4c6, [0x4c5]),
   (0x4c8, [0x4c7]),
   (0x4ca, [0x4c9]),
   (0x4cc, [0x4cb]),
   (0x4ce, [0x4cd]),
   (0x4cf, [0x4c0]),
   (0x4d1, [0x4d0]),
   (0x4d3, [0x4d2]),
   (0x4d5, [0x4d4]),
   (0x4d7, [0x4d6]),
   (0x4d9, [0x4d8]),
   (0x4db, [0x4da]),
   (0x4dd, [0x4dc]),
   (0x4df, [0x4de]),
   (0x4e1, [0x4e0]),
   (0x4e3, [0x4e2]),
   (0x4e5, [0x4e4]),
   (0x4e7, [0x4e6]),
   (0x4e9, [0x4e8]),
   (0x4eb, [0x4ea]),
   (0x4ed, [0x4ec]),
   (0x4ef, [0x4ee]),
   (0x4f1, [0x4f0]),
   (0x4f3, [0x4f2]),
   (0x4f5, [0x4f4]),
   (0x4f7, [0x4f6]),
   (0x4f9, [0x4f8]),
   (0x4fb, [0x4fa]),
   (0x4fd, [0x4fc]),
   (0x4ff, [0x4fe]),
   (0x501, [0x500]),
   (0x503, [0x502]),
   (0x505, [0x504]),
   (0x507, [0x506]),
   (0x509, [0x508]),
   (0x50b, [0x50a]),
   (0x50d, [0x50c]),
   (0x50f, [0x50e]),
   (0x511, [0x510]),
   (0x513, [0x512]),
   (0x515, [0x514]),
   (0x517, [0x516]),
   (0x519, [0x518]),
   (0x51b, [0x51a]),
   (0x51d, [0x51c]),
   (0x51f, [0x51e]),
   (0x521, [0x520]),
   (0x523, [0x522]),
   (0x525, [0x524]),
   (0x527, [0x526]),
   (0x529, [0x528]),
   (0x52b, [0x52a]),
   (0x52d, [0x52c]),
   (0x52f, [0x52e]),
   (0x561, [0x531]),
   (0x562, [0x532]),
   (0x563, [0x533]),
   (0x564, [0x534]),
   (0x565, [0x535]),
   (0x566, [0x536]),
   (0x567, [0x537]),
   (0x568, [0x538]),
   (0x569, [0x539]),
   (0x56a, [0x53a]),
   (0x56b, [0x53b]),
   (0x56c, [0x53c]),
   (0x56d, [0x53d]),
   (0x56e, [0x53e]),
   (0x56f, [0x53f]),
   (0x570, [0x540]),
   (0x571, [0x541]),
   (0x572, [0x542]),
   (0x573, [0x543]),
   (0x574, [0x544]),
   (0x575, [0x545]),
   (0x576, [0x546]),
   (0x577, [0x547]),
   (0x578, [0x548]),
   (0x579, [0x549]),
   (0x57a, [0x54a]),
   (0x57b, [0x54b]),
   (0x57c, [0x54c]),
   (0x57d, [0x54d]),
   (0x57e, [0x54e]),
   (0x57f, [0x54f]),
   (0x580, [0x550]),
   (0x581, [0x551]),
   (0x582, [0x552]),
   (0x583, [0x553]),
   (0x584, [0x554]),
   (0x585, [0x555]),
   (0x586, [0x556]),
   (0x587, [0x535, 0x552]),
   (0x10d0, [0x1c90]),
   (0x10d1, [0x1c91]),
   (0x10d2, [0x1c92]),
   (0x10d3, [0x1c93]),
   (0x10d4, [0x1c94]),
   (0x10d5, [0x1c95]),
   (0x10d6, [0x1c96]),
   (0x10d7, [0x1c97]),
   (0x10d8, [0x1c98]),
   (0x10d9, [0x1c99]),
   (0x10da, [0x1c9a]),
   (0x10db, [0x1c9b]),
   (0x10dc, [0x1c9c]),
   (0x10dd, [0x1c9d]),
   (0x10de, [0x1c9e]),
   (0x10df, [0x1c9f]),
   (0x10e0, [0x1ca0]),
   (0x10e1, [0x1ca1]),
   (0x10e2, [0x1ca2]),
   (0x10e3, [0x1ca3]),
   (0x10e4, [0x1ca4]),
   (0x10e5, [0x1ca5]),
   (0x10e6, [0x1ca6]),
   (0x10e7, [0x1ca7]),
   (0x10e8, [0x1ca8]),
   (0x10e9, [0x1ca9]),
   (0x10ea, [0x1caa]),
   (0x10eb, [0x1cab]),
   (0x10ec, [0x1cac]),
   (0x10ed, [0x1cad]),
   (0x10ee, [0x1cae]),
   (0x10ef, [0x1caf]),
   (0x10f0, [0x1cb0]),
   (0x10f1, [0x1cb1]),
   (0x10f2, [0x1cb2]),
   (0x10f3, [0x1cb3]),
   (0x10f4, [0x1cb4]),
   (0x10f5, [0x1cb5]),
   (0x10f6, [0x1cb6]),
   (0x10f7, [0x1cb7]),
   (0x10f8, [0x1cb8]),
   (0x10f9, [0x1cb9]),
   (0x10fa, [0x1cba]),
   (0x10fd, [0x1cbd]),
   (0x10fe, [0x1cbe]),
   (0x10ff, [0x1cbf]),
   (0x13f8, [0x13f0]),
   (0x13f9, [0x13f1]),
   (0x13fa, [0x13f2]),
   (0x13fb, [0x13f3]),
   (0x13fc, [0x13f4]),
   (0x13fd, [0x13f5]),
   (0x1c80, [0x412]),
   (0x1c81, [0x414]),
   (0x1c82, [0x41e]),
   (0x1c83, [0x421]),
   (0x1c84, [0x422]),
   (0x1c85, [0x422]),
   (0x1c86, [0x42a]),
   (0x1c87, [0x462]),
   (0x1c88, [0xa64a]),
   (0x1d79, [0xa77d]),
   (0x1d7d, [0x2c63]),
   (0x1d8e, [0xa7c6]),
   (0x1e01, [0x1e00]),
   (0x1e03, [0x1e02]),
   (0x1e05, [0x1e04]),
   (0x1e07, [0x1e06]),
   (0x1e09, [0x1e08]),
   (0x1e0b, [0x1e0a]),
   (0x1e0d, [0x1e0c]),
   (0x1e0f, [0x1e0e]),
   (0x1e11, [0x1e10]),
   (0x1e13, [0x1e12]),
   (0x1e15, [0x1e14]),
   (0x1e17, [0x1e16]),
   (0x1e19, [0x1e18]),
   (0x1e1b, [0x1e1a]),
   (0x1e1d, [0x1e1c]),
   (0x1e1f, [0x1e1e]),
   (0x1e21, [0x1e20]),
   (0x1e23, [0x1e22]),
   (0x1e25, [0x1e24]),
   (0x1e27, [0x1e26]),
   (0x1e29, [0x1e28]),
   (0x1e2b, [0x1e2a]),
   (0x1e2d, [0x1e2c]),
   (0x1e2f, [0x1e2e]),
   (0x1e31, [0x1e30]),
   (0x1e33, [0x1e32]),
   (0x1e35, [0x1e34]),
   (0x1e37, [0x1e36]),
   (0x1e39, [0x1e38]),
   (0x1e3b, [0x1e3a]),
   (0x1e3d, [0x1e3c]),
   (0x1e3f, [0x1e3e]),
   (0x1e41, [0x1e40]),
   (0x1e43, [0x1e42]),
   (0x1e45, [0x1e44]),
   (0x1e47, [0x1e46]),
   (0x1e49, [0x1e48]),
   (0x1e4b, [0x1e4a]),
   (0x1e4d, [0x1e4c]),
   (0x1e4f, [0x1e4e]),
   (0x1e51, [0x1e50]),
   (0x1e53, [0x1e52]),
   (0x1e55, [0x1e54]),
   (0x1e57, [0x1e56]),
   (0x1e59, [0x1e58]),
   (0x1e5b, [0x1e5a]),
   (0x1e5d, [0x1e5c]),
   (0x1e5f, [0x1e5e]),
   (0x1e61, [0x1e60]),
   (0x1e63, [0x1e62]),
   (0x1e65, [0x1e64]),
   (0x1e67, [0x1e66]),
   (0x1e69, [0x1e68]),
   (0x1e6b, [0x1e6a]),
   (0x1e6d, [0x1e6c]),
   (0x1e6f, [0x1e6e]),
   (0x1e71, [0x1e70]),
   (0x1e73, [0x1e72]),
   (0x1e75, [0x1e74]),
   (0x1e77, [0x1e76]),
   (0x1e79, [0x1e78]),
   (0x1e7b, [0x1e7a]),
   (0x1e7d, [0x1e7c]),
   (0x1e7f, [0x1e7e]),
   (0x1e81, [0x1e80]),
   (0x1e83, [0x1e82]),
   (0x1e85, [0x1e84]),
   (0x1e87, [0x1e86]),
   (0x1e89, [0x1e88]),
   (0x1e8b, [0x1e8a]),
   (0x1e8d, [0x1e8c]),
   (0x1e8f, [0x1e8e]),
   (0x1e91, [0x1e90]),
   (0x1e93, [0x1e92]),
   (0x1e95, [0x1e94]),
   (0x1e96, [0x48, 0x331]),
   (0x1e97, [0x54, 0x308]),
   (0x1e98, [0x57, 0x30a]),
   (0x1e99, [0x59, 0x30a]),
   (0x1e9a, [0x41, 0x2be]),
   (0x1e9b, [0x1e60]),
   (0x1ea1, [0x1ea0]),
   (0x1ea3, [0x1ea2]),
   (0x1ea5, [0x1ea4]),
   (0x1ea7, [0x1ea6]),
   (0x1ea9, [0x1ea8]),
   (0x1eab, [0x1eaa]),
   (0x1ead, [0x1eac]),
   (0x1eaf, [0x1eae]),
   (0x1eb1, [0x1eb0]),
   (0x1eb3, [0x1eb2]),
   (0x1eb5, [0x1eb4]),
   (0x1eb7, [0x1eb6]),
   (0x1eb9, [0x1eb8]),
   (0x1ebb, [0x1eba]),
   (0x1ebd, [0x1ebc]),
   (0x1ebf, [0x1ebe]),
   (0x1ec1, [0x1ec0]),
   (0x1ec3, [0x1ec2]),
   (0x1ec5, [0x1ec4]),
   (0x1ec7, [0x1ec6]),
   (0x1ec9, [0x1ec8]),
   (0x1ecb, [0x1eca]),
   (0x1ecd, [0x1ecc]),
   (0x1ecf, [0x1ece]),
   (0x1ed1, [0x1ed0]),
   (0x1ed3, [0x1ed2]),
   (0x1ed5, [0x1ed4]),
   (0x1ed7, [0x1ed6]),
   (0x1ed9, [0x1ed8]),
   (0x1edb, [0x1eda]),
   (0x1edd, [0x1edc]),
   (0x1edf, [0x1ede]),
   (0x1ee1, [0x1ee0]),
   (0x1ee3, [0x1ee2]),
   (0x1ee5, [0x1ee4]),
   (0x1ee7, [0x1ee6]),
   (0x1ee9, [0x1ee8]),
   (0x1eeb, [0x1eea]),
   (0x1eed, [0x1eec]),
   (0x1eef, [0x1eee]),
   (0x1ef1, [0x1ef0]),
   (0x1ef3, [0x1ef2]),
   (0x1ef5, [0x1ef4]),
   (0x1ef7, [0x1ef6]),
   (0x1ef9, [0x1ef8]),
   (0x1efb, [0x1efa]),
   (0x1efd, [0x1efc]),
   (0x1eff, [0x1efe]),
   (0x1f00, [0x1f08]),
   (0x1f01, [0x1f09]),
   (0x1f02, [0x1f0a]),
   (0x1f03, [0x1f0b]),
   (0x1f04, [0x1f0c]),
   (0x1f05, [0x1f0d]),
   (0x1f06, [0x1f0e]),
   (0x1f07, [0x1f0f]),
   (0x1f10, [0x1f18]),
   (0x1f11, [0x1f19]),
   (0x1f12, [0x1f1a]),
   (0x1f13, [0x1f1b]),
   (0x1f14, [0x1f1c]),
   (0x1f15, [0x1f1d]),
   (0x1f20, [0x1f28]),
   (0x1f21, [0x1f29]),
   (0x1f22, [0x1f2a]),
   (0x1f23, [0x1f2b]),
   (0x1f24, [0x1f2c]),
   (0x1f25, [0x1f2d]),
   (0x1f26, [0x1f2e]),
   (0x1f27, [0x1f2f]),
   (0x1f30, [0x1f38]),
   (0x1f31, [0x1f39]),
   (0x1f32, [0x1f3a]),
   (0x1f33, [0x1f3b]),
   (0x1f34, [0x1f3c]),
   (0x1f35, [0x1f3d]),
   (0x1f36, [0x1f3e]),
   (0x1f37, [0x1f3f]),
   (0x1f40, [0x1f48]),
   (0x1f41, [0x1f49]),
   (0x1f42, [0x1f4a]),
   (0x1f43, [0x1f4b]),
   (0x1f44, [0x1f4c]),
   (0x1f45, [0x1f4d]),
   (0x1f50, [0x3a5, 0x313]),
   (0x1f51, [0x1f59]),
   (0x1f52, [0x3a5, 0x313, 0x300]),
   (0x1f53, [0x1f5b]),
   (0x1f54, [0x3a5, 0x313, 0x301]),
   (0x1f55, [0x1f5d]),
   (0x1f56, [0x3a5, 0x313, 0x342]),
   (0x1f57, [0x1f5f]),
   (0x1f60, [0x1f68]),
   (0x1f61, [0x1f69]),
   (0x1f62, [0x1f6a]),
   (0x1f63, [0x1f6b]),
   (0x1f64, [0x1f6c]),
   (0x1f65, [0x1f6d]),
   (0x1f66, [0x1f6e]),
   (0x1f67, [0x1f6f]),
   (0x1f70, [0x1fba]),
   (0x1f71, [0x1fbb]),
   (0x1f72, [0x1fc8]),
   (0x1f73, [0x1fc9]),
   (0x1f74, [0x1fca]),
   (0x1f75, [0x1fcb]),
   (0x1f76, [0x1fda]),
   (0x1f77, [0x1fdb]),
   (0x1f78, [0x1ff8]),
   (0x1f79, [0x1ff9]),
   (0x1f7a, [0x1fea]),
   (0x1f7b, [0x1feb]),
   (0x1f7c, [0x1ffa]),
   (0x1f7d, [0x1ffb]),
   (0x1f80, [0x1f08, 0x399]),
   (0x1f81, [0x1f09, 0x399]),
   (0x1f82, [0x1f0a, 0x399]),
   (0x1f83, [0x1f0b, 0x399]),
   (0x1f84, [0x1f0c, 0x399]),
   (0x1f85, [0x1f0d, 0x399]),
   (0x1f86, [0x1f0e, 0x399]),
   (0x1f87, [0x1f0f, 0x399]),
   (0x1f88, [0x1f08, 0x399]),
   (0x1f89, [0x1f09, 0x399]),
   (0x1f8a, [0x1f0a, 0x399]),
   (0x1f8b, [0x1f0b, 0x399]),
   (0x1f8c, [0x1f0c, 0x399]),
   (0x1f8d, [0x1f0d, 0x399]),
   (0x1f8e, [0x1f0e, 0x399]),
   (0x1f8f, [0x1f0f, 0x399]),
   (0x1f90, [0x1f28, 0x399]),
   (0x1f91, [0x1f29, 0x399]),
   (0x1f92, [0x1f2a, 0x399]),
   (0x1f93, [0x1f2b, 0x399]),
   (0x1f94, [0x1f2c, 0x399]),
   (0x1f95, [0x1f2d, 0x399]),
   (0x1f96, [0x1f2e, 0x399]),
   (0x1f97, [0x1f2f, 0x399]),
   (0x1f98, [0x1f28, 0x399]),
   (0x1f99, [0x1f29, 0x399]),
   (0x1f9a, [0x1f2a, 0x399]),
   (0x1f9b, [0x1f2b, 0x399]),
   (0x1f9c, [0x1f2c, 0x399]),
   (0x1f9d, [0x1f2d, 0x399]),
   (0x1f9e, [0x1f2e, 0x399]),
   (0x1f9f, [0x1f2f, 0x399]),
   (0x1fa0, [0x1f68, 0x399]),
   (0x1fa1, [0x1f69, 0x399]),
   (0x1fa2, [0x1f6a, 0x399]),
   (0x1fa3, [0x1f6b, 0x399]),
   (0x1fa4, [0x1f6c, 0x399]),
   (0x1fa5, [0x1f6d, 0x399]),
   (0x1fa6, [0x1f6e, 0x399]),
   (0x1fa7, [0x1f6f, 0x399]),
   (0x1fa8, [0x1f68, 0x399]),
   (0x1fa9, [0x1f69, 0x399]),
   (0x1faa, [0x1f6a, 0x399]),
   (0x1fab, [0x1f6b, 0x399]),
   (0x1fac, [0x1f6c, 0x399]),
   (0x1fad, [0x1f6d, 0x399]),
   (0x1fae, [0x1f6e, 0x399]),
   (0x1faf, [0x1f6f, 0x399]),
   (0x1fb0, [0x1fb8]),
   (0x1fb1, [0x1fb9]),
   (0x1fb2, [0x1fba, 0x399]),
   (0x1fb3, [0x391, 0x399]),
   (0x1fb4, [0x386, 0x399]),
   (0x1fb6, [0x391, 0x342]),
   (0x1fb7, [0x391, 0x342, 0x399]),
   (0x1fbc, [0x391, 0x399]),
   (0x1fbe, [0x399]),
   (0x1fc2, [0x1fca, 0x399]),
   (0x1fc3, [0x397, 0x399]),
   (0x1fc4, [0x389, 0x399]),
   (0x1fc6, [0x397, 0x342]),
   (0x1fc7, [0x397, 0x342, 0x399]),
   (0x1fcc, [0x397, 0x399]),
   (0x1fd0, [0x1fd8]),
   (0x1fd1, [0x1fd9]),
   (0x1fd2, [0x399, 0x308, 0x300]),
   (0x1fd3, [0x399, 0x308, 0x301]),
   (0x1fd6, [0x399, 0x342]),
   (0x1fd7, [0x399, 0x308, 0x342]),
   (0x1fe0, [0x1fe8]),
   (0x1fe1, [0x1fe9]),
   (0x1fe2, [0x3a5, 0x308, 0x300]),
   (0x1fe3, [0x3a5, 0x308, 0x301]),
   (0x1fe4, [0x3a1, 0x313]),
   (0x1fe5, [0x1fec]),
   (0x1fe6, [0x3a5, 0x342]),
   (0x1fe7, [0x3a5, 0x308, 0x342]),
   (0x1ff2, [0x1ffa, 0x399]),
   (0x1ff3, [0x3a9, 0x399]),
   (0x1ff4, [0x38f, 0x399]),
   (0x1ff6, [0x3a9, 0x342]),
   (0x1ff7, [0x3a9, 0x342, 0x399]),
   (0x1ffc, [0x3a9, 0x399]),
   (0x214e, [0x2132]),
   (0x2170, [0x2160]),
   (0x2171, [0x2161]),
   (0x2172, [0x2162]),
   (0x2173, [0x2163]),
   (0x2174, [0x2164]),
   (0x2175, [0x2165]),
   (0x2176, [0x2166]),
   (0x2177, [0x2167]),
   (0x2178, [0x2168]),
   (0x2179, [0x2169]),
   (0x217a, [0x216a]),
   (0x217b, [0x216b]),
   (0x217c, [0x216c]),
   (0x217d, [0x216d]),
   (0x217e, [0x216e]),
   (0x217f, [0x216f]),
   (0x2184, [0x2183]),
   (0x24d0, [0x24b6]),
   (0x24d1, [0x24b7]),
   (0x24d2, [0x24b8]),
   (0x24d3, [0x24b9]),
   (0x24d4, [0x24ba]),
   (0x24d5, [0x24bb]),
   (0x24d6, [0x24bc]),
   (0x24d7, [0x24bd]),
   (0x24d8, [0x24be]),
   (0x24d9, [0x24bf]),
   (0x24da, [0x24c0]),
   (0x24db, [0x24c1]),
   (0x24dc, [0x24c2]),
   (0x24dd, [0x24c3]),
   (0x24de, [0x24c4]),
   (0x24df, [0x24c5]),
   (0x24e0, [0x24c6]),
   (0x24e1, [0x24c7]),
   (0x24e2, [0x24c8]),
   (0x24e3, [0x24c9]),
   (0x24e4, [0x24ca]),
   (0x24e5, [0x24cb]),
   (0x24e6, [0x24cc]),
   (0x24e7, [0x24cd]),
   (0x24e8, [0x24ce]),
   (0x24e9, [0x24cf]),
   (0x2c30, [0x2c00]),
   (0x2c31, [0x2c01]),
   (0x2c32, [0x2c02]),
   (0x2c33, [0x2c03]),
   (0x2c34, [0x2c04]),
   (0x2c35, [0x2c05]),
   (0x2c36, [0x2c06]),
   (0x2c37, [0x2c07]),
   (0x2c38, [0x2c08]),
   (0x2c39, [0x2c09]),
   (0x2c3a, [0x2c0a]),
   (0x2c3b, [0x2c0b]),
   (0x2c3c, [0x2c0c]),
   (0x2c3d, [0x2c0d]),
   (0x2c3e, [0x2c0e]),
   (0x2c3f, [0x2c0f]),
   (0x2c40, [0x2c10]),
   (0x2c41, [0x2c11]),
   (0x2c42, [0x2c12]),
   (0x2c43, [0x2c13]),
   (0x2c44, [0x2c14]),
   (0x2c45, [0x2c15]),
   (0x2c46, [0x2c16]),
   (0x2c47, [0x2c17]),
   (0x2c48, [0x2c18]),
   (0x2c49, [0x2c19]),
   (0x2c4a, [0x2c1a]),
   (0x2c4b, [0x2c1b]),
   (0x2c4c, [0x2c1c]),
   (0x2c4d, [0x2c1d]),
   (0x2c4e, [0x2c1e]),
   (0x2c4f, [0x2c1f]),
   (0x2c50, [0x2c20]),
   (0x2c51, [0x2c21]),
   (0x2c52, [0x2c22]),
   (0x2c53, [0x2c23]),
   (0x2c54, [0x2c24]),
   (0x2c55, [0x2c25]),
   (0x2c56, [0x2c26]),
   (0x2c57, [0x2c27]),
   (0x2c58, [0x2c28]),
   (0x2c59, [0x2c29]),
   (0x2c5a, [0x2c2a]),
   (0x2c5b, [0x2c2b]),
   (0x2c5c, [0x2c2c]),
   (0x2c5d, [0x2c2d]),
   (0x2c5e, [0x2c2e]),
   (0x2c5f, [0x2c2f]),
   (0x2c61, [0x2c60]),
   (0x2c65, [0x23a]),
   (0x2c66, [0x23e]),
   (0x2c68, [0x2c67]),
   (0x2c6a, [0x2c69]),
   (0x2c6c, [0x2c6b]),
   (0x2c73, [0x2c72]),
   (0x2c76, [0x2c75]),
   (0x2c81, [0x2c80]),
   (0x2c83, [0x2c82]),
   (0x2c85, [0x2c84]),
   (0x2c87, [0x2c86]),
   (0x2c89, [0x2c88]),
   (0x2c8b, [0x2c8a]),
   (0x2c8d, [0x2c8c]),
   (0x2c8f, [0x2c8e]),
   (0x2c91, [0x2c90]),
   (0x2c93, [0x2c92]),
   (0x2c95, [0x2c94]),
   (0x2c97, [0x2c96]),
   (0x2c99, [0x2c98]),
   (0x2c9b, [0x2c9a]),
   (0x2c9d, [0x2c9c]),
   (0x2c9f, [0x2c9e]),
   (0x2ca1, [0x2ca0]),
   (0x2ca3, [0x2ca2]),
   (0x2ca5, [0x2ca4]),
   (0x2ca7, [0x2ca6]),
   (0x2ca9, [0x2ca8]),
   (0x2cab, [0x2caa]),
   (0x2cad, [0x2cac]),
   (0x2caf, [0x2cae]),
   (0x2cb1, [0x2cb0]),
   (0x2cb3, [0x2cb2]),
   (0x2cb5, [0x2cb4]),
   (0x2cb7, [0x2cb6]),
   (0x2cb9, [0x2cb8]),
   (0x2cbb, [0x2cba]),
   (0x2cbd, [0x2cbc]),
   (0x2cbf, [0x2cbe]),
   (0x2cc1, [0x2cc0]),
   (0x2cc3, [0x2cc2]),
   (0x2cc5, [0x2cc4]),
   (0x2cc7, [0x2cc6]),
   (0x2cc9, [0x2cc8]),
   (0x2ccb, [0x2cca]),
   (0x2ccd, [0x2ccc]),
   (0x2ccf, [0x2cce]),
   (0x2cd1, [0x2cd0]),
   (0x2cd3, [0x2cd2]),
   (0x2cd5, [0x2cd4]),
   (0x2cd7, [0x2cd6]),
   (0x2cd9, [0x2cd8]),
   (0x2cdb, [0x2cda]),
   (0x2cdd, [0x2cdc]),
   (0x2cdf, [0x2cde]),
   (0x2ce1, [0x2ce0]),
   (0x2ce3, [0x2ce2]),
   (0x2cec, [0x2ceb]),
   (0x2cee, [0x2ced]),
   (0x2cf3, [0x2cf2]),
   (0x2d00, [0x10a0]),
   (0x2d01, [0x10a1]),
   (0x2d02, [0x10a2]),
   (0x2d03, [0x10a3]),
   (0x2d04, [0x10a4]),
   (0x2d05, [0x10a5]),
   (0x2d06, [0x10a6]),
   (0x2d07, [0x10a7]),
   (0x2d08, [0x10a8]),
   (0x2d09, [0x10a9]),
   (0x2d0a, [0x10aa]),
   (0x2d0b, [0x10ab]),
   (0x2d0c, [0x10ac]),
   (0x2d0d, [0x10ad]),
   (0x2d0e, [0x10ae]),
   (0x2d0f, [0x10af]),
   (0x2d10, [0x10b0]),
   (0x2d11, [0x10b1]),
   (0x2d12, [0x10b2]),
   (0x2d13, [0x10b3]),
   (0x2d14, [0x10b4]),
   (0x2d15, [0x10b5]),
   (0x2d16, [0x10b6]),
   (0x2d17, [0x10b7]),
   (0x2d18, [0x10b8]),
   (0x2d19, [0x10b9]),
   (0x2d1a, [0x10ba]),
   (0x2d1b, [0x10bb]),
   (0x2d1c, [0x10bc]),
   (0x2d1d, [0x10bd]),
   (0x2d1e, [0x10be]),
   (0x2d1f, [0x10bf]),
   (0x2d20, [0x10c0]),
   (0x2d21, [0x10c1]),
   (0x2d22, [0x10c2]),
   (0x2d23, [0x10c3]),
   (0x2d24, [0x10c4]),
   (0x2d25, [0x10c5]),
   (0x2d27, [0x10c7]),
   (0x2d2d, [0x10cd]),
   (0xa641, [0xa640]),
   (0xa643, [0xa642]),
   (0xa645, [0xa644]),
   (0xa647, [0xa646]),
   (0xa649, [0xa648]),
   (0xa64b, [0xa64a]),
   (0xa64d, [0xa64c]),
   (0xa64f, [0xa64e]),
   (0xa651, [0xa650]),
   (0xa653, [0xa652]),
   (0xa655, [0xa654]),
   (0xa657, [0xa656]),
   (0xa659, [0xa658]),
   (0xa65b, [0xa65a]),
   (0xa65d, [0xa65c]),
   (0xa65f, [0xa65e]),
   (0xa661, [0xa660]),
   (0xa663, [0xa662]),
   (0xa665, [0xa664]),
   (0xa667, [0xa666]),
   (0xa669, [0xa668]),
   (0xa66b, [0xa66a]),
   (0xa66d, [0xa66c]),
   (0xa681, [0xa680]),
   (0xa683, [0xa682]),
   (0xa685, [0xa684]),
   (0xa687, [0xa686]),
   (0xa689, [0xa688]),
   (0xa68b, [0xa68a]),
   (0xa68d, [0xa68c]),
   (0xa68f, [0xa68e]),
   (0xa691, [0xa690]),
   (0xa693, [0xa692]),
   (0xa695, [0xa694]),
   (0xa697, [0xa696]),
   (0xa699, [0xa698]),
   (0xa69b, [0xa69a]),
   (0xa723, [0xa722]),
   (0xa725, [0xa724]),
   (0xa727, [0xa726]),
   (0xa729, [0xa728]),
   (0xa72b, [0xa72a]),
   (0xa72d, [0xa72c]),
   (0xa72f, [0xa72e]),
   (0xa733, [0xa732]),
   (0xa735, [0xa734]),
   (0xa737, [0xa736]),
   (0xa739, [0xa738]),
   (0xa73b, [0xa73a]),
   (0xa73d, [0xa73c]),
   (0xa73f, [0xa73e]),
   (0xa741, [0xa740]),
   (0xa743, [0xa742]),
   (0xa745, [0xa744]),
   (0xa747, [0xa746]),
   (0xa749, [0xa748]),
   (0xa74b, [0xa74a]),
   (0xa74d, [0xa74c]),
   (0xa74f, [0xa74e]),
   (0xa751, [0xa750]),
   (0xa753, [0xa752]),
   (0xa755, [0xa754]),
   (0xa757, [0xa756]),
   (0xa759, [0xa758]),
   (0xa75b, [0xa75a]),
   (0xa75d, [0xa75c]),
   (0xa75f, [0xa75e]),
   (0xa761, [0xa760]),
   (0xa763, [0xa762]),
   (0xa765, [0xa764]),
   (0xa767, [0xa766]),
   (0xa769, [0xa768]),
   (0xa76b, [0xa76a]),
   (0xa76d, [0xa76c]),
   (0xa76f, [0xa76e]),
   (0xa77a, [0xa779]),
   (0xa77c, [0xa77b]),
   (0xa77f, [0xa77e]),
   (0xa781, [0xa780]),
   (0xa783, [0xa782]),
   (0xa785, [0xa784]),
   (0xa787, [0xa786]),
   (0xa78c, [0xa78b]),
   (0xa791, [0xa790]),
   (0xa793, [0xa792]),
   (0xa794, [0xa7c4]),
   (0xa797, [0xa796]),
   (0xa799, [0xa798]),
   (0xa79b, [0xa79a]),
   (0xa79d, [0xa79c]),
   (0xa79f, [0xa79e]),
   (0xa7a1, [0xa7a0]),
   (0xa7a3, [0xa7a2]),
   (0xa7a5, [0xa7a4]),
   (0xa7a7, [0xa7a6]),
   (0xa7a9, [0xa7a8]),
   (0xa7b5, [0xa7b4]),
   (0xa7b7, [0xa7b6]),
   (0xa7b9, [0xa7b8]),
   (0xa7bb, [0xa7ba]),
   (0xa7bd, [0xa7bc]),
   (0xa7bf, [0xa7be]),
   (0xa7c1, [0xa7c0]),
   (0xa7c3, [0xa7c2]),
   (0xa7c8, [0xa7c7]),
   (0xa7ca, [0xa7c9]),
   (0xa7d1, [0xa7d0]),
   (0xa7d7, [0xa7d6]),
   (0xa7d9, [0xa7d8]),
   (0xa7f6, [0xa7f5]),
   (0xab53, [0xa7b3]),
   (0xab70, [0x13a0]),
   (0xab71, [0x13a1]),
   (0xab72, [0x13a2]),
   (0xab73, [0x13a3]),
   (0xab74, [0x13a4]),
   (0xab75, [0x13a5]),
   (0xab76, [0x13a6]),
   (0xab77, [0x13a7]),
   (0xab78, [0x13a8]),
   (0xab79, [0x13a9]),
   (0xab7a, [0x13aa]),
   (0xab7b, [0x13ab]),
   (0xab7c, [0x13ac]),
   (0xab7d, [0x13ad]),
   (0xab7e, [0x13ae]),
   (0xab7f, [0x13af]),
   (0xab80, [0x13b0]),
   (0xab81, [0x13b1]),
   (0xab82, [0x13b2]),
   (0xab83, [0x13b3]),
   (0xab84, [0x13b4]),
   (0xab85, [0x13b5]),
   (0xab86, [0x13b6]),
   (0xab87, [0x13b7]),
   (0xab88, [0x13b8]),
   (0xab89, [0x13b9]),
   (0xab8a, [0x13ba]),
   (0xab8b, [0x13bb]),
   (0xab8c, [0x13bc]),
   (0xab8d, [0x13bd]),
   (0xab8e, [0x13be]),
   (0xab8f, [0x13bf]),
   (0xab90, [0x13c0]),
   (0xab91, [0x13c1]),
   (0xab92, [0x13c2]),
   (0xab93, [0x13c3]),
   (0xab94, [0x13c4]),
   (0xab95, [0x13c5]),
   (0xab96, [0x13c6]),
   (0xab97, [0x13c7]),
   (0xab98, [0x13c8]),
   (0xab99, [0x13c9]),
   (0xab9a, [0x13ca]),
   (0xab9b, [0x13cb]),
   (0xab9c, [0x13cc]),
   (0xab9d, [0x13cd]),
   (0xab9e, [0x13ce]),
   (0xab9f, [0x13cf]),
   (0xaba0, [0x13d0]),
   (0xaba1, [0x13d1]),
   (0xaba2, [0x13d2]),
   (0xaba3, [0x13d3]),
   (0xaba4, [0x13d4]),
   (0xaba5, [0x13d5]),
   (0xaba6, [0x13d6]),
   (0xaba7, [0x13d7]),
   (0xaba8, [0x13d8]),
   (0xaba9, [0x13d9]),
   (0xabaa, [0x13da]),
   (0xabab, [0x13db]),
   (0xabac, [0x13dc]),
   (0xabad, [0x13dd]),
   (0xabae, [0x13de]),
   (0xabaf, [0x13df]),
   (0xabb0, [0x13e0]),
   (0xabb1, [0x13e1]),
   (0xabb2, [0x13e2]),
   (0xabb3, [0x13e3]),
   (0xabb4, [0x13e4]),
   (0xabb5, [0x13e5]),
   (0xabb6, [0x13e6]),
   (0xabb7, [0x13e7]),
   (0xabb8, [0x13e8]),
   (0xabb9, [0x13e9]),
   (0xabba, [0x13ea]),
   (0xabbb, [0x13eb]),
   (0xabbc, [0x13ec]),
   (0xabbd, [0x13ed]),
   (0xabbe, [0x13ee]),
   (0xabbf, [0x13ef]),
   (0xfb00, [0x46, 0x46]),
   (0xfb01, [0x46, 0x49]),
   (0xfb02, [0x46, 0x4c]),
   (0xfb03, [0x46, 0x46, 0x49]),
   (0xfb04, [0x46, 0x46, 0x4c]),
   (0xfb05, [0x53, 0x54]),
   (0xfb06, [0x53, 0x54]),
   (0xfb13, [0x544, 0x546]),
   (0xfb14, [0x544, 0x535]),
   (0xfb15, [0x544, 0x53b]),
   (0xfb16, [0x54e, 0x546]),
   (0xfb17, [0x544, 0x53d]),
   (0xff41, [0xff21]),
   (0xff42, [0xff22]),
   (0xff43, [0xff23]),
   (0xff44, [0xff24]),
   (0xff45, [0xff25]),
   (0xff46, [0xff26]),
   (0xff47, [0xff27]),
   (0xff48, [0xff28]),
   (0xff49, [0xff29]),
   (0xff4a, [0xff2a]),
   (0xff4b, [0xff2b]),
   (0xff4c, [0xff2c]),
   (0xff4d, [0xff2d]),
   (0xff4e, [0xff2e]),
   (0xff4f, [0xff2f]),
   (0xff50, [0xff30]),
   (0xff51, [0xff31]),
   (0xff52, [0xff32]),
   (0xff53, [0xff33]),
   (0xff54, [0xff34]),
   (0xff55, [0xff35]),
   (0xff56, [0xff36]),
   (0xff57, [0xff37]),
   (0xff58, [0xff38]),
   (0xff59, [0xff39]),
   (0xff5a, [0xff3a]),
   (0x10428, [0x10400]),
   (0x10429, [0x10401]),
   (0x1042a, [0x10402]),
   (0x1042b, [0x10403]),
   (0x1042c, [0x10404]),
   (0x1042d, [0x10405]),
   (0x1042e, [0x10406]),
   (0x1042f, [0x10407]),
   (0x10430, [0x10408]),
   (0x10431, [0x10409]),
   (0x10432, [0x1040a]),
   (0x10433, [0x1040b]),
   (0x10434, [0x1040c]),
   (0x10435, [0x1040d]),
   (0x10436, [0x1040e]),
   (0x10437, [0x1040f]),
   (0x10438, [0x10410]),
   (0x10439, [0x10411]),
   (0x1043a, [0x10412]),
   (0x1043b, [0x10413]),
   (0x1043c, [0x10414]),
   (0x1043d, [0x10415]),
   (0x1043e, [0x10416]),
   (0x1043f, [0x10417]),
   (0x10440, [0x10418]),
   (0x10441, [0x10419]),
   (0x10442, [0x1041a]),
   (0x10443, [0x1041b]),
   (0x10444, [0x1041c]),
   (0x10445, [0x1041d]),
   (0x10446, [0x1041e]),
   (0x10447, [0x1041f]),
   (0x10448, [0x10420]),
   (0x10449, [0x10421]),
   (0x1044a, [0x10422]),
   (0x1044b, [0x10423]),
   (0x1044c, [0x10424]),
   (0x1044d, [0x10425]),
   (0x1044e, [0x10426]),
   (0x1044f, [0x10427]),
   (0x104d8, [0x104b0]),
   (0x104d9, [0x104b1]),
   (0x104da, [0x104b2]),
   (0x104db, [0x104b3]),
   (0x104dc, [0x104b4]),
   (0x104dd, [0x104b5]),
   (0x104de, [0x104b6]),
   (0x104df, [0x104b7]),
   (0x104e0, [0x104b8]),
   (0x104e1, [0x104b9]),
   (0x104e2, [0x104ba]),
   (0x104e3, [0x104bb]),
   (0x104e4, [0x104bc]),
   (0x104e5, [0x104bd]),
   (0x104e6, [0x104be]),
   (0x104e7, [0x104bf]),
   (0x104e8, [0x104c0]),
   (0x104e9, [0x104c1]),
   (0x104ea, [0x104c2]),
   (0x104eb, [0x104c3]),
   (0x104ec, [0x104c4]),
   (0x104ed, [0x104c5]),
   (0x104ee, [0x104c6]),
   (0x104ef, [0x104c7]),
   (0x104f0, [0x104c8]),
   (0x104f1, [0x104c9]),
   (0x104f2, [0x104ca]),
   (0x104f3, [0x104cb]),
   (0x104f4, [0x104cc]),
   (0x104f5, [0x104cd]),
   (0x104f6, [0x104ce]),
   (0x104f7, [0x104cf]),
   (0x104f8, [0x104d0]),
   (0x104f9, [0x104d1]),
   (0x104fa, [0x104d2]),
   (0x104fb, [0x104d3]),
   (0x10597, [0x10570]),
   (0x10598, [0x10571]),
   (0x10599, [0x10572]),
   (0x1059a, [0x10573]),
   (0x1059b, [0x10574]),
   (0x1059c, [0x10575]),
   (0x1059d, [0x10576]),
   (0x1059e, [0x10577]),
   (0x1059f, [0x10578]),
   (0x105a0, [0x10579]),
   (0x105a1, [0x1057a]),
   (0x105a3, [0x1057c]),
   (0x105a4, [0x1057d]),
   (0x105a5, [0x1057e]),
   (0x105a6, [0x1057f]),
   (0x105a7, [0x10580]),
   (0x105a8, [0x10581]),
   (0x105a9, [0x10582]),
   (0x105aa, [0x10583]),
   (0x105ab, [0x10584]),
   (0x105ac, [0x10585]),
   (0x105ad, [0x10586]),
   (0x105ae, [0x10587]),
   (0x105af, [0x10588]),
   (0x105b0, [0x10589]),
   (0x105b1, [0x1058a]),
   (0x105b3, [0x1058c]),
   (0x105b4, [0x1058d]),
   (0x105b5, [0x1058e]),
   (0x105b6, [0x1058f]),
   (0x105b7, [0x10590]),
   (0x105b8, [0x10591]),
   (0x105b9, [0x10592]),
   (0x105bb, [0x10594]),
   (0x105bc, [0x10595]),
   (0x10cc0, [0x10c80]),
   (0x10cc1, [0x10c81]),
   (0x10cc2, [0x10c82]),
   (0x10cc3, [0x10c83]),
   (0x10cc4, [0x10c84]),
   (0x10cc5, [0x10c85]),
   (0x10cc6, [0x10c86]),
   (0x10cc7, [0x10c87]),
   (0x10cc8, [0x10c88]),
   (0x10cc9, [0x10c89]),
   (0x10cca, [0x10c8a]),
   (0x10ccb, [0x10c8b]),
   (0x10ccc, [0x10c8c]),
   (0x10ccd, [0x10c8d]),
   (0x10cce, [0x10c8e]),
   (0x10ccf, [0x10c8f]),
   (0x10cd0, [0x10c90]),
   (0x10cd1, [0x10c91]),
   (0x10cd2, [0x10c92]),
   (0x10cd3, [0x10c93]),
   (0x10cd4, [0x10c94]),
   (0x10cd5, [0x10c95]),
   (0x10cd6, [0x10c96]),
   (0x10cd7, [0x10c97]),
   (0x10cd8, [0x10c98]),
   (0x10cd9, [0x10c99]),
   (0x10cda, [0x10c9a]),
   (0x10cdb, [0x10c9b]),
   (0x10cdc, [0x10c9c]),
   (0x10cdd, [0x10c9d]),
   (0x10cde, [0x10c9e]),
   (0x10cdf, [0x10c9f]),
   (0x10ce0, [0x10ca0]),
   (0x10ce1, [0x10ca1]),
   (0x10ce2, [0x10ca2]),
   (0x10ce3, [0x10ca3]),
   (0x10ce4, [0x10ca4]),
   (0x10ce5, [0x10ca5]),
   (0x10ce6, [0x10ca6]),
   (0x10ce7, [0x10ca7]),
   (0x10ce8, [0x10ca8]),
   (0x10ce9, [0x10ca9]),
   (0x10cea, [0x10caa]),
   (0x10ceb, [0x10cab]),
   (0x10cec, [0x10cac]),
   (0x10ced, [0x10cad]),
   (0x10cee, [0x10cae]),
   (0x10cef, [0x10caf]),
   (0x10cf0, [0x10cb0]),
   (0x10cf1, [0x10cb1]),
   (0x10cf2, [0x10cb2]),
   (0x118c0, [0x118a0]),
   (0x118c1, [0x118a1]),
   (0x118c2, [0x118a2]),
   (0x118c3, [0x118a3]),
   (0x118c4, [0x118a4]),
   (0x118c5, [0x118a5]),
   (0x118c6, [0x118a6]),
   (0x118c7, [0x118a7]),
   (0x118c8, [0x118a8]),
   (0x118c9, [0x118a9]),
   (0x118ca, [0x118aa]),
   (0x118cb, [0x118ab]),
   (0x118cc, [0x118ac]),
   (0x118cd, [0x118ad]),
   (0x118ce, [0x118ae]),
   (0x118cf, [0x118af]),
   (0x118d0, [0x118b0]),
   (0x118d1, [0x118b1]),
   (0x118d2, [0x118b2]),
   (0x118d3, [0x118b3]),
   (0x118d4, [0x118b4]),
   (0x118d5, [0x118b5]),
   (0x118d6, [0x118b6]),
   (0x118d7, [0x118b7]),
   (0x118d8, [0x118b8]),
   (0x118d9, [0x118b9]),
   (0x118da, [0x118ba]),
   (0x118db, [0x118bb]),
   (0x118dc, [0x118bc]),
   (0x118dd, [0x118bd]),
   (0x118de, [0x118be]),
   (0x118df, [0x118bf]),
   (0x16e60, [0x16e40]),
   (0x16e61, [0x16e41]),
   (0x16e62, [0x16e42]),
   (0x16e63, [0x16e43]),
   (0x16e64, [0x16e44]),
   (0x16e65, [0x16e45]),
   (0x16e66, [0x16e46]),
   (0x16e67, [0x16e47]),
   (0x16e68, [0x16e48]),
   (0x16e69, [0x16e49]),
   (0x16e6a, [0x16e4a]),
   (0x16e6b, [0x16e4b]),
   (0x16e6c, [0x16e4c]),
   (0x16e6d, [0x16e4d]),
   (0x16e6e, [0x16e4e]),
   (0x16e6f, [0x16e4f]),
   (0x16e70, [0x16e50]),
   (0x16e71, [0x16e51]),
   (0x16e72, [0x16e52]),
   (0x16e73, [0x16e53]),
   (0x16e74, [0x16e54]),
   (0x16e75, [0x16e55]),
   (0x16e76, [0x16e56]),
   (0x16e77, [0x16e57]),
   (0x16e78, [0x16e58]),
   (0x16e79, [0x16e59]),
   (0x16e7a, [0x16e5a]),
   (0x16e7b, [0x16e5b]),
   (0x16e7c, [0x16e5c]),
   (0x16e7d, [0x16e5d]),
   (0x16e7e, [0x16e5e]),
   (0x16e7f, [0x16e5f]),
   (0x1e922, [0x1e900]),
   (0x1e923, [0x1e901]),
   (0x1e924, [0x1e902]),
   (0x1e925, [0x1e903]),
   (0x1e926, [0x1e904]),
   (0x1e927, [0x1e905]),
   (0x1e928, [0x1e906]),
   (0x1e929, [0x1e907]),
   (0x1e92a, [0x1e908]),
   (0x1e92b, [0x1e909]),
   (0x1e92c, [0x1e90a]),
   (0x1e92d, [0x1e90b]),
   (0x1e92e, [0x1e90c]),
   (0x1e92f, [0x1e90d]),
   (0x1e930, [0x1e90e]),
   (0x1e931, [0x1e90f]),
   (0x1e932, [0x1e910]),
   (0x1e933, [0x1e911]),
   (0x1e934, [0x1e912]),
   (0x1e935, [0x1e913]),
   (0x1e936, [0x1e914]),
   (0x1e937, [0x1e915]),
   (0x1e938, [0x1e916]),
   (0x1e939, [0x1e917]),
   (0x1e93a, [0x1e918]),
   (0x1e93b, [0x1e919]),
   (0x1e93c, [0x1e91a]),
   (0x1e93d, [0x1e91b]),
   (0x1e93e, [0x1e91c]),
   (0x1e93f, [0x1e91d]),
   (0x1e940, [0x1e91e]),
   (0x1e941, [0x1e91f]),
   (0x1e942, [0x1e920]),
   (0x1e943, [0x1e921])]

/-- First-match lookup in a code-point-keyed association list. -/
def upperLookup : Nat → List (Nat × List Nat) → Option (List Nat)
  | _, [] => none
  | n, p :: rest => if n = p.1 then some p.2 else upperLookup n rest

/-- Python `str.upper()` on a single character: the possibly multi-character
uppercase form. -/
def pyUpper (c : Char) : List Char :=
  match upperLookup c.toNat upperTable with
  | some v => v.map Char.ofNat
  | none => [c]

/-- Python `from_base36` (utils.py): reject the empty string, strip and
upper-case, reject any character outside the base-36 alphabet, then
accumulate `result * 36 + index` left to right. -/
def from_base36 (value : List Char) : Except TileError Nat :=
  if value = [] then .error .invalidInput
  else
    let v := (pyStrip value).flatMap pyUpper
    if v.any (fun c => !(_BASE36_ALPHABET.contains c)) then .error .invalidInput
    else .ok (v.foldl (fun result c => result * 36 + _BASE36_ALPHABET.indexOf c) 0)

/-! ## Hilbert curve model (external `hilbertcurve` library, spec §4.4)

`d2xy p d` models `HilbertCurve(p, 2).points_from_distances` at distance `d`
and `xy2d p (x, y)` models `distances_from_points`.  The spec treats the
library as a primitive whose whole contract is the bijection
`[0, 2^p)² ↔ [0, 4^p)` (§4.4); the claims depend on the curve only through
that contract, which is proved below for this model (a standard recursive
2-D Hilbert curve, agreeing with the library at order 1). -/

/-- Distance to point on the order-`p` Hilbert curve, by recursion on the
quadrant of the two most significant base-4 digits. -/
def d2xy : Nat → Nat → Nat × Nat
  | 0, _ => (0, 0)
  | p + 1, d =>
    let h := 2 ^ p
    let q := d / 4 ^ p
    let pt := d2xy p (d % 4 ^ p)
    if q = 0 then (pt.2, pt.1)
    else if q = 1 then (pt.1, pt.2 + h)
    else if q = 2 then (pt.1 + h, pt.2 + h)
    else (2 * h - 1 - pt.2, h - 1 - pt.1)

/-- Point to distance on the order-`p` Hilbert curve; inverse of `d2xy`. -/
def xy2d : Nat → Nat × Nat → Nat
  | 0, _ => 0
  | p + 1, pt =>
    let h := 2 ^ p
    if pt.1 < h then
      if pt.2 < h then xy2d p (pt.2, pt.1)
      else 4 ^ p + xy2d p (pt.1, pt.2 - h)
    else
      if pt.2 < h then 3 * 4 ^ p + xy2d p (h - 1 - pt.2, 2 * h - 1 - pt.1)
      else 2 * 4 ^ p + xy2d p (pt.1 - h, pt.2 - h)

/-! ## Tile service (src/coordinator_backend/services/tiles.py) -/

/-- Python `get_tile_size_from_level` restricted to its success domain
(non-negative levels): `100000.0 / 2**level`, clamped below at `1.0`. -/
def tileSizeQ (level : Nat) : ℚ :=
  let tile_size : ℚ := 100000 / 2 ^ level
  if tile_size ≥ 1 then tile_size else 1

/-- Python `get_tile_size_from_level` (tiles.py): rejects negative levels with
`ValueError`, otherwise computes the clamped size. -/
def get_tile_size_from_level (level : Int) : Except TileError ℚ :=
  if level < 0 then .error .invalidLevel
  else .ok (tileSizeQ level.toNat)

/-- Python dataclass `TileGrid` (tiles.py). -/
structure TileGrid where
  level : Nat
  tile_size : ℚ
  min_i : Int
  min_j : Int
  max_i : Int
  max_j : Int
deriving DecidableEq, Repr

def TileGrid.width (g : TileGrid) : Int := g.max_i - g.min_i + 1

def TileGrid.height (g : TileGrid) : Int := g.max_j - g.min_j + 1

/-- Smallest `k` with `m ≤ 2 ^ k`; agrees with Python
`math.ceil(math.log2 m)` for every integer `m ≥ 1` (the float log2 of an
integer in the reached range never rounds across an integer). The first
argument is structural fuel; `m` itself is always enough fuel. -/
def ceilLog2Aux : Nat → Nat → Nat
  | 0, _ => 0
  | fuel + 1, m => if m ≤ 1 then 0 else ceilLog2Aux fuel ((m + 1) / 2) + 1

def ceilLog2 (m : Nat) : Nat := ceilLog2Aux m m

/-- Python `TileGrid.hilbert_order`: `max(1, ceil(log2(max(width, height))))`. -/
def TileGrid.hilbert_order (g : TileGrid) : Nat :=
  max 1 (ceilLog2 (max g.width g.height).toNat)

/-- Python `TileService._grid_for_level` (tiles.py).  The `_grid_cache`
memoization is observationally transparent (the grid is a pure function of
the level) and is not modelled. -/
def grid_for_level (level : Nat) : TileGrid :=
  let tile_size := tileSizeQ level
  { level := level
    tile_size := tile_size
    min_i := ⌊(X_MIN_AREA - (MARCO_ZERO_X - tile_size / 2)) / tile_size⌋
    min_j := ⌊(Y_MIN_AREA - (MARCO_ZERO_Y - tile_size / 2)) / tile_size⌋
    max_i := ⌈(X_MAX_AREA - (MARCO_ZERO_X - tile_size / 2)) / tile_size⌉ - 1
    max_j := ⌈(Y_MAX_AREA - (MARCO_ZERO_Y - tile_size / 2)) / tile_size⌉ - 1 }

/-- Python dataclass `Tile` (tiles.py). -/
structure Tile where
  tile_id : List Char
  level : Nat
  bbox : ℚ × ℚ × ℚ × ℚ
  grid_coords : Int × Int
  normalized_coords : Int × Int
  hilbert_distance : Nat
deriving DecidableEq, Repr

/-- Python `Tile.center`. -/
def Tile.center (t : Tile) : ℚ × ℚ :=
  ((t.bbox.1 + t.bbox.2.2.1) / 2, (t.bbox.2.1 + t.bbox.2.2.2) / 2)

/-- Body of the generation loop of `TileService.generate_tiles` for one grid
cell `(i_idx, j_idx)`.  The normalized coordinates `i_idx - min_i` and
`j_idx - min_j` are non-negative for every cell the loop visits, so the
`Int.toNat` casts feeding the curve are exact. -/
def tileAt (grid : TileGrid) (level : Nat) (i_idx j_idx : Int) : Tile :=
  let x_min := (MARCO_ZERO_X - grid.tile_size / 2) + i_idx * grid.tile_size
  let y_min := (MARCO_ZERO_Y - grid.tile_size / 2) + j_idx * grid.tile_size
  let x_max := x_min + grid.tile_size
  let y_max := y_min + grid.tile_size
  let normalized_i := i_idx - grid.min_i
  let normalized_j := j_idx - grid.min_j
  let hilbert_distance := xy2d grid.hilbert_order (normalized_i.toNat, normalized_j.toNat)
  { tile_id := to_base36 hilbert_distance
    level := level
    bbox := (x_min, y_min, x_max, y_max)
    grid_coords := (i_idx, j_idx)
    normalized_coords := (normalized_i, normalized_j)
    hilbert_distance := hilbert_distance }

/-- Python `TileService.generate_tiles` (tiles.py): iterate every
`(j_idx, i_idx)` of the grid range, build each tile, and (stably) sort by
Hilbert distance. -/
def generate_tiles (level : Nat) : List Tile :=
  let grid := grid_for_level level
  let tiles :=
    (List.range grid.height.toNat).flatMap fun (kj : Nat) =>
      (List.range grid.width.toNat).map fun (ki : Nat) =>
        tileAt grid level (grid.min_i + ki) (grid.min_j + kj)
  tiles.mergeSort fun a b => a.hilbert_distance ≤ b.hilbert_distance

/-- Python `TileService.tile_from_id` (tiles.py). -/
def tile_from_id (level : Nat) (tile_id : List Char) : Except TileError Tile :=
  let grid := grid_for_level level
  match from_base36 tile_id with
  | .error e => .error e
  | .ok distance =>
    let max_distance := (2 ^ grid.hilbert_order) ^ 2
    if ¬ distance < max_distance then .error .identifierOutOfRange
    else
      let pt := d2xy grid.hilbert_order distance
      let normalized_i : Int := pt.1
      let normalized_j : Int := pt.2
      if normalized_i ≥ grid.width ∨ normalized_j ≥ grid.height then .error .unmappedTile
      else
        let i_idx := normalized_i + grid.min_i
        let j_idx := normalized_j + grid.min_j
        let x_min := (MARCO_ZERO_X - grid.tile_size / 2) + i_idx * grid.tile_size
        let y_min := (MARCO_ZERO_Y - grid.tile_size / 2) + j_idx * grid.tile_size
        .ok { tile_id := tile_id.flatMap pyUpper
              level := level
              bbox := (x_min, y_min, x_min + grid.tile_size, y_min + grid.tile_size)
              grid_coords := (i_idx, j_idx)
              normalized_coords := (normalized_i, normalized_j)
              hilbert_distance := distance }

/-- Python `TileService.tile_for_coordinates` (tiles.py), at the planar
entry point: the first line of the Python function converts WGS84 input
through the external projection (`wgs84_to_sirgas`), which the spec (§6)
specifies as an exact inverse pair; this model receives the resulting
planar easting/northing directly. -/
def tile_for_coordinates (level : Nat) (easting northing : ℚ) : Except TileError Tile :=
  let tile_size := tileSizeQ level
  let origin_x := MARCO_ZERO_X - tile_size / 2
  let origin_y := MARCO_ZERO_Y - tile_size / 2
  let i_idx : Int := ⌊(easting - origin_x) / tile_size⌋
  let j_idx : Int := ⌊(northing - origin_y) / tile_size⌋
  let grid := grid_for_level level
  let normalized_i := i_idx - grid.min_i
  let normalized_j := j_idx - grid.min_j
  if normalized_i < 0 ∨ normalized_j < 0 ∨ normalized_i ≥ grid.width ∨ normalized_j ≥ grid.height then
    .error .coordinateOutOfArea
  else
    let distance := xy2d grid.hilbert_order (normalized_i.toNat, normalized_j.toNat)
    let x_min := (MARCO_ZERO_X - grid.tile_size / 2) + i_idx * grid.tile_size
    let y_min := (MARCO_ZERO_Y - grid.tile_size / 2) + j_idx * grid.tile_size
    .ok { tile_id := to_base36 distance
          level := level
          bbox := (x_min, y_min, x_min + grid.tile_size, y_min + grid.tile_size)
          grid_coords := (i_idx, j_idx)
          normalized_coords := (normalized_i, normalized_j)
          hilbert_distance := distance }

/-! ## Decidable equality for results -/

end CoordinatorBackend

deriving instance DecidableEq for Except

namespace CoordinatorBackend

/-! ## Arithmetic helpers -/

theorem div_mod_of_mul_add (k b r : Nat) (hb : 0 < b) (hr : r < b) :
    (k * b + r) / b = k ∧ (k * b + r) % b = r := by
  constructor
  · rw [Nat.add_comm, Nat.add_mul_div_right _ _ hb, Nat.div_eq_of_lt hr, Nat.zero_add]
  · rw [Nat.add_comm, Nat.add_mul_mod_self_right, Nat.mod_eq_of_lt hr]

theorem two_pow_sq (p : Nat) : (2 ^ p) ^ 2 = 4 ^ p := by
  rw [show (4 : Nat) = 2 * 2 from rfl, Nat.mul_pow]
  ring

/-! ## Hilbert curve: the bijection contract of spec §4.4 -/

theorem d2xy_lt : ∀ p d : Nat, (d2xy p d).1 < 2 ^ p ∧ (d2xy p d).2 < 2 ^ p
  | 0, d => by simp [d2xy]
  | p + 1, d => by
    have ih := d2xy_lt p (d % 4 ^ p)
    have h2 : 0 < 2 ^ p := Nat.two_pow_pos p
    have hs : 2 ^ (p + 1) = 2 * 2 ^ p := by ring
    simp only [d2xy]
    split
    · dsimp only; omega
    · split
      · dsimp only; omega
      · split
        · dsimp only; omega
        · dsimp only; omega

theorem xy2d_lt : ∀ (p x y : Nat), x < 2 ^ p → y < 2 ^ p → xy2d p (x, y) < 4 ^ p
  | 0, _, _, _, _ => by simp [xy2d]
  | p + 1, x, y, hx, hy => by
    have h2 : 0 < 2 ^ p := Nat.two_pow_pos p
    have hs : 2 ^ (p + 1) = 2 * 2 ^ p := by ring
    have hf : 4 ^ (p + 1) = 4 * 4 ^ p := by ring
    simp only [xy2d]
    split
    · split
      · have := xy2d_lt p y x (by omega) (by omega)
        omega
      · have := xy2d_lt p x (y - 2 ^ p) (by omega) (by omega)
        omega
    · split
      · have := xy2d_lt p (2 ^ p - 1 - y) (2 * 2 ^ p - 1 - x) (by omega) (by omega)
        omega
      · have := xy2d_lt p (x - 2 ^ p) (y - 2 ^ p) (by omega) (by omega)
        omega

theorem xy2d_d2xy : ∀ p d : Nat, d < 4 ^ p → xy2d p (d2xy p d) = d
  | 0, d, hd => by
    have h1 : (4 : Nat) ^ 0 = 1 := rfl
    have hd0 : d = 0 := by omega
    subst hd0
    simp [d2xy, xy2d]
  | p + 1, d, hd => by
    have h4 : 0 < 4 ^ p := Nat.pos_pow_of_pos p (by omega)
    have h2 : 0 < 2 ^ p := Nat.two_pow_pos p
    have hrlt : d % 4 ^ p < 4 ^ p := Nat.mod_lt d h4
    have hdm := Nat.div_add_mod d (4 ^ p)
    have hq : d / 4 ^ p < 4 := by
      apply Nat.div_lt_of_lt_mul
      calc d < 4 ^ (p + 1) := hd
        _ = 4 ^ p * 4 := by ring
    simp only [d2xy]
    set pt := d2xy p (d % 4 ^ p) with hptdef
    have hpt1 : pt.1 < 2 ^ p := (d2xy_lt p (d % 4 ^ p)).1
    have hpt2 : pt.2 < 2 ^ p := (d2xy_lt p (d % 4 ^ p)).2
    have ih : xy2d p pt = d % 4 ^ p := by
      rw [hptdef]; exact xy2d_d2xy p (d % 4 ^ p) hrlt
    obtain ⟨q, hqdef⟩ : ∃ q, d / 4 ^ p = q := ⟨_, rfl⟩
    rw [hqdef] at hdm hq ⊢
    interval_cases q
    · -- quadrant 0
      norm_num
      simp only [xy2d]
      rw [if_pos (show pt.2 < 2 ^ p from hpt2), if_pos (show pt.1 < 2 ^ p from hpt1),
        Prod.mk.eta, ih]
      omega
    · -- quadrant 1
      norm_num
      simp only [xy2d]
      rw [if_pos (show pt.1 < 2 ^ p from hpt1),
        if_neg (show ¬ pt.2 + 2 ^ p < 2 ^ p from by omega),
        Nat.add_sub_cancel, Prod.mk.eta, ih]
      omega
    · -- quadrant 2
      norm_num
      simp only [xy2d]
      rw [if_neg (show ¬ pt.1 + 2 ^ p < 2 ^ p from by omega),
        if_neg (show ¬ pt.2 + 2 ^ p < 2 ^ p from by omega),
        Nat.add_sub_cancel, Nat.add_sub_cancel, Prod.mk.eta, ih]
      omega
    · -- quadrant 3
      norm_num
      simp only [xy2d]
      rw [if_neg (show ¬ 2 * 2 ^ p - 1 - pt.2 < 2 ^ p from by omega),
        if_pos (show 2 ^ p - 1 - pt.1 < 2 ^ p from by omega),
        show 2 ^ p - 1 - (2 ^ p - 1 - pt.1) = pt.1 from by omega,
        show 2 * 2 ^ p - 1 - (2 * 2 ^ p - 1 - pt.2) = pt.2 from by omega,
        Prod.mk.eta, ih]
      omega

theorem d2xy_xy2d : ∀ p x y : Nat, x < 2 ^ p → y < 2 ^ p → d2xy p (xy2d p (x, y)) = (x, y)
  | 0, x, y, hx, hy => by
    have h1 : (2 : Nat) ^ 0 = 1 := rfl
    have hx0 : x = 0 := by omega
    have hy0 : y = 0 := by omega
    subst hx0; subst hy0
    simp [d2xy, xy2d]
  | p + 1, x, y, hx, hy => by
    have h4 : 0 < 4 ^ p := Nat.pos_pow_of_pos p (by omega)
    have h2 : 0 < 2 ^ p := Nat.two_pow_pos p
    have hs : 2 ^ (p + 1) = 2 * 2 ^ p := by ring
    simp only [xy2d]
    split
    · rename_i hx1
      split
      · -- quadrant 0
        rename_i hy1
        set r := xy2d p (y, x) with hrdef
        have hr : r < 4 ^ p := by rw [hrdef]; exact xy2d_lt p y x hy1 hx1
        have ih : d2xy p r = (y, x) := by
          rw [hrdef]; exact d2xy_xy2d p y x hy1 hx1
        simp only [d2xy, Nat.div_eq_of_lt hr, Nat.mod_eq_of_lt hr, ih]
        simp
      · -- quadrant 1
        rename_i hy1
        set r := xy2d p (x, y - 2 ^ p) with hrdef
        have hr : r < 4 ^ p := by
          rw [hrdef]; exact xy2d_lt p x (y - 2 ^ p) hx1 (by omega)
        have ih : d2xy p r = (x, y - 2 ^ p) := by
          rw [hrdef]; exact d2xy_xy2d p x (y - 2 ^ p) hx1 (by omega)
        have hdm := div_mod_of_mul_add 1 (4 ^ p) r h4 hr
        have hdiv : (4 ^ p + r) / 4 ^ p = 1 := by
          rw [show 4 ^ p + r = 1 * 4 ^ p + r by ring]; exact hdm.1
        have hmod : (4 ^ p + r) % 4 ^ p = r := by
          rw [show 4 ^ p + r = 1 * 4 ^ p + r by ring]; exact hdm.2
        simp only [d2xy, hdiv, hmod, ih]
        rw [if_neg (by omega)]
        simp [show y - 2 ^ p + 2 ^ p = y from by omega]
    · rename_i hx1
      split
      · -- quadrant 3
        rename_i hy1
        set r := xy2d p (2 ^ p - 1 - y, 2 * 2 ^ p - 1 - x) with hrdef
        have hr : r < 4 ^ p := by
          rw [hrdef]; exact xy2d_lt p _ _ (by omega) (by omega)
        have ih : d2xy p r = (2 ^ p - 1 - y, 2 * 2 ^ p - 1 - x) := by
          rw [hrdef]; exact d2xy_xy2d p _ _ (by omega) (by omega)
        have hdm := div_mod_of_mul_add 3 (4 ^ p) r h4 hr
        simp only [d2xy, hdm.1, hdm.2, ih]
        rw [if_neg (by omega), if_neg (by omega), if_neg (by omega)]
        rw [show 2 * 2 ^ p - 1 - (2 * 2 ^ p - 1 - x) = x by omega,
          show 2 ^ p - 1 - (2 ^ p - 1 - y) = y by omega]
      · -- quadrant 2
        rename_i hy1
        set r := xy2d p (x - 2 ^ p, y - 2 ^ p) with hrdef
        have hr : r < 4 ^ p := by
          rw [hrdef]; exact xy2d_lt p _ _ (by omega) (by omega)
        have ih : d2xy p r = (x - 2 ^ p, y - 2 ^ p) := by
          rw [hrdef]; exact d2xy_xy2d p _ _ (by omega) (by omega)
        have hdm := div_mod_of_mul_add 2 (4 ^ p) r h4 hr
        simp only [d2xy, hdm.1, hdm.2, ih]
        rw [if_neg (by omega), if_neg (by omega)]
        simp [show x - 2 ^ p + 2 ^ p = x from by omega,
          show y - 2 ^ p + 2 ^ p = y from by omega]

/-- Injectivity of the curve on its square domain, a consequence of the
round trip. -/
theorem xy2d_inj {p x y x' y' : Nat} (hx : x < 2 ^ p) (hy : y < 2 ^ p)
    (hx' : x' < 2 ^ p) (hy' : y' < 2 ^ p) (h : xy2d p (x, y) = xy2d p (x', y')) :
    x = x' ∧ y = y' := by
  have h1 := d2xy_xy2d p x y hx hy
  have h2 := d2xy_xy2d p x' y' hx' hy'
  rw [h] at h1
  rw [h1] at h2
  exact ⟨congrArg Prod.fst h2, congrArg Prod.snd h2⟩

/-! ## The curve order bound -/

theorem ceilLog2Aux_le : ∀ fuel m : Nat, m ≤ fuel → m ≤ 2 ^ ceilLog2Aux fuel m
  | 0, m, h => by simp only [ceilLog2Aux]; omega
  | fuel + 1, m, h => by
    simp only [ceilLog2Aux]
    split
    · rename_i hm
      simpa using hm
    · rename_i hm
      have hrec := ceilLog2Aux_le fuel ((m + 1) / 2) (by omega)
      have hp : 2 ^ (ceilLog2Aux fuel ((m + 1) / 2) + 1)
          = 2 * 2 ^ ceilLog2Aux fuel ((m + 1) / 2) := by ring
      omega

theorem le_two_pow_ceilLog2 (m : Nat) : m ≤ 2 ^ ceilLog2 m :=
  ceilLog2Aux_le m m (Nat.le_refl m)

/-- Both grid dimensions fit inside the square curve domain of the level's
order (spec §3 invariant `2^curveOrder ≥ max(width, height)`). -/
theorem dims_le_two_pow_order (g : TileGrid) :
    g.width.toNat ≤ 2 ^ g.hilbert_order ∧ g.height.toNat ≤ 2 ^ g.hilbert_order := by
  have hw : g.width.toNat ≤ (max g.width g.height).toNat :=
    Int.toNat_le_toNat (le_max_left _ _)
  have hh : g.height.toNat ≤ (max g.width g.height).toNat :=
    Int.toNat_le_toNat (le_max_right _ _)
  have hM := le_two_pow_ceilLog2 (max g.width g.height).toNat
  have hmono : 2 ^ ceilLog2 (max g.width g.height).toNat ≤ 2 ^ g.hilbert_order :=
    Nat.pow_le_pow_right (by omega) (le_max_right 1 _)
  exact ⟨le_trans hw (le_trans hM hmono), le_trans hh (le_trans hM hmono)⟩

/-! ## Base-36 codec lemmas -/

theorem alphabet_getD_mem : ∀ k < 36, _BASE36_ALPHABET.getD k '0' ∈ _BASE36_ALPHABET := by
  decide

theorem alphabet_indexOf_getD :
    ∀ k < 36, _BASE36_ALPHABET.indexOf (_BASE36_ALPHABET.getD k '0') = k := by
  decide

theorem alphabet_not_space : ∀ c ∈ _BASE36_ALPHABET, isPySpace c = false := by
  decide

theorem alphabet_upper_fixed : ∀ c ∈ _BASE36_ALPHABET, pyUpper c = [c] := by
  decide

theorem alphabet_contains : ∀ c ∈ _BASE36_ALPHABET, _BASE36_ALPHABET.contains c = true := by
  decide

theorem contains_iff_mem {l : List Char} {c : Char} : l.contains c = true ↔ c ∈ l :=
  List.elem_iff

theorem toBase36Aux_mem : ∀ fuel n, n ≤ fuel → ∀ c ∈ toBase36Aux fuel n, c ∈ _BASE36_ALPHABET
  | 0, n, _ => by simp [toBase36Aux]
  | fuel + 1, n, h => by
    simp only [toBase36Aux]
    split
    · simp
    · rename_i hn
      intro c hc
      rcases List.mem_cons.mp hc with rfl | hc2
      · exact alphabet_getD_mem _ (Nat.mod_lt _ (by omega))
      · refine toBase36Aux_mem fuel (n / 36) ?_ c hc2
        have := Nat.div_lt_self (show 0 < n by omega) (show 1 < 36 by omega)
        omega

theorem toBase36Aux_foldl : ∀ fuel n acc, n ≤ fuel →
    ((toBase36Aux fuel n).reverse).foldl
        (fun result c => result * 36 + _BASE36_ALPHABET.indexOf c) acc
      = acc * 36 ^ (toBase36Aux fuel n).length + n
  | 0, n, acc, h => by
    have hn : n = 0 := by omega
    subst hn
    simp [toBase36Aux]
  | fuel + 1, n, acc, h => by
    simp only [toBase36Aux]
    split
    · rename_i hn
      simp [hn]
    · rename_i hn
      have hfuel : n / 36 ≤ fuel := by
        have := Nat.div_lt_self (show 0 < n by omega) (show 1 < 36 by omega)
        omega
      have ihr := toBase36Aux_foldl fuel (n / 36) acc hfuel
      rw [List.reverse_cons, List.foldl_append, ihr]
      simp only [List.foldl]
      rw [alphabet_indexOf_getD (n % 36) (Nat.mod_lt _ (by omega))]
      rw [show (_BASE36_ALPHABET.getD (n % 36) '0' :: toBase36Aux fuel (n / 36)).length
        = (toBase36Aux fuel (n / 36)).length + 1 from rfl]
      rw [show acc * 36 ^ ((toBase36Aux fuel (n / 36)).length + 1)
        = acc * 36 ^ (toBase36Aux fuel (n / 36)).length * 36 from by ring]
      have hnm := Nat.div_add_mod n 36
      omega

theorem to_base36_mem_alphabet (n : Nat) : ∀ c ∈ to_base36 n, c ∈ _BASE36_ALPHABET := by
  unfold to_base36
  split
  · intro c hc
    simp only [List.mem_singleton] at hc
    subst hc
    decide
  · intro c hc
    exact toBase36Aux_mem n n (Nat.le_refl n) c (List.mem_reverse.mp hc)

theorem to_base36_ne_nil (n : Nat) : to_base36 n ≠ [] := by
  unfold to_base36
  split
  · simp
  · rename_i hn
    have haux : toBase36Aux n n ≠ [] := by
      cases n with
      | zero => exact absurd rfl hn
      | succ m => simp [toBase36Aux]
    simpa using haux

/-- Generic helper: `dropWhile` is the identity on a list none of whose
elements satisfy the predicate. -/
theorem dropWhile_eq_self_of {α : Type} (p : α → Bool) :
    ∀ l : List α, (∀ c ∈ l, p c = false) → l.dropWhile p = l
  | [], _ => rfl
  | a :: l, h => by
    simp [List.dropWhile_cons, h a (List.mem_cons_self a l)]

theorem pyStrip_eq_self_of (l : List Char) (h : ∀ c ∈ l, isPySpace c = false) :
    pyStrip l = l := by
  unfold pyStrip
  rw [dropWhile_eq_self_of _ l h,
    dropWhile_eq_self_of _ l.reverse (fun c hc => h c (List.mem_reverse.mp hc)),
    List.reverse_reverse]

/-- Generic helper: `flatMap` is the identity on a list each of whose
elements expands to its own singleton. -/
theorem flatMap_eq_self_of {α : Type} (f : α → List α) :
    ∀ l : List α, (∀ c ∈ l, f c = [c]) → l.flatMap f = l
  | [], _ => rfl
  | a :: l, h => by
    simp only [List.flatMap_cons, h a (List.mem_cons_self a l),
      flatMap_eq_self_of f l (fun c hc => h c (List.mem_cons_of_mem a hc)),
      List.singleton_append]

/-- Codec round trip (spec §4.1): decoding an encoded value recovers it. -/
theorem from_base36_to_base36 (n : Nat) : from_base36 (to_base36 n) = .ok n := by
  rcases Nat.eq_zero_or_pos n with hn | hn
  · subst hn
    decide
  · have hrep : to_base36 n = (toBase36Aux n n).reverse := by
      unfold to_base36
      rw [if_neg (by omega)]
    have hmem := to_base36_mem_alphabet n
    have hne := to_base36_ne_nil n
    have hnospace : ∀ c ∈ to_base36 n, isPySpace c = false :=
      fun c hc => alphabet_not_space c (hmem c hc)
    have hupper : ∀ c ∈ to_base36 n, pyUpper c = [c] :=
      fun c hc => alphabet_upper_fixed c (hmem c hc)
    have hany : ¬ ((to_base36 n).any (fun c => !(_BASE36_ALPHABET.contains c)) = true) := by
      simpa using hmem
    simp only [from_base36]
    rw [if_neg hne, pyStrip_eq_self_of _ hnospace, flatMap_eq_self_of _ _ hupper,
      if_neg hany]
    rw [hrep, toBase36Aux_foldl n n 0 (Nat.le_refl n)]
    simp

theorem to_base36_inj : Function.Injective to_base36 := by
  intro a b h
  have ha := from_base36_to_base36 a
  rw [h, from_base36_to_base36 b] at ha
  simpa using ha.symm

/-! ## Grid and tile-generation lemmas -/

theorem one_le_tileSizeQ (level : Nat) : 1 ≤ tileSizeQ level := by
  simp only [tileSizeQ]
  split
  · assumption
  · exact le_refl 1

theorem tileSizeQ_pos (level : Nat) : 0 < tileSizeQ level :=
  lt_of_lt_of_le one_pos (one_le_tileSizeQ level)

theorem tileAt_tile_id (grid : TileGrid) (level : Nat) (i j : Int) :
    (tileAt grid level i j).tile_id
      = to_base36 (xy2d grid.hilbert_order ((i - grid.min_i).toNat, (j - grid.min_j).toNat)) := rfl

theorem tileAt_level (grid : TileGrid) (level : Nat) (i j : Int) :
    (tileAt grid level i j).level = level := rfl

theorem tileAt_hilbert_distance (grid : TileGrid) (level : Nat) (i j : Int) :
    (tileAt grid level i j).hilbert_distance
      = xy2d grid.hilbert_order ((i - grid.min_i).toNat, (j - grid.min_j).toNat) := rfl

theorem tileAt_normalized_coords (grid : TileGrid) (level : Nat) (i j : Int) :
    (tileAt grid level i j).normalized_coords = (i - grid.min_i, j - grid.min_j) := rfl

theorem tileAt_grid_coords (grid : TileGrid) (level : Nat) (i j : Int) :
    (tileAt grid level i j).grid_coords = (i, j) := rfl

theorem tileAt_bbox (grid : TileGrid) (level : Nat) (i j : Int) :
    (tileAt grid level i j).bbox
      = ((MARCO_ZERO_X - grid.tile_size / 2) + i * grid.tile_size,
         (MARCO_ZERO_Y - grid.tile_size / 2) + j * grid.tile_size,
         (MARCO_ZERO_X - grid.tile_size / 2) + i * grid.tile_size + grid.tile_size,
         (MARCO_ZERO_Y - grid.tile_size / 2) + j * grid.tile_size + grid.tile_size) := rfl

theorem add_sub_cancel_toNat (a : Int) (k : Nat) : (a + k - a).toNat = k := by omega

/-- Membership in the generated level list, characterized by normalized cell
offsets. -/
theorem mem_generate_tiles_iff (level : Nat) (t : Tile) :
    t ∈ generate_tiles level ↔
      ∃ ki kj : Nat, ki < (grid_for_level level).width.toNat
        ∧ kj < (grid_for_level level).height.toNat
        ∧ t = tileAt (grid_for_level level) level
            ((grid_for_level level).min_i + ki) ((grid_for_level level).min_j + kj) := by
  constructor
  · intro ht
    rw [show generate_tiles level
        = ((List.range (grid_for_level level).height.toNat).flatMap fun (kj : Nat) =>
            (List.range (grid_for_level level).width.toNat).map fun (ki : Nat) =>
              tileAt (grid_for_level level) level
                ((grid_for_level level).min_i + ki)
                ((grid_for_level level).min_j + kj)).mergeSort
            (fun a b => a.hilbert_distance ≤ b.hilbert_distance) from rfl,
      List.mem_mergeSort] at ht
    obtain ⟨kj, hkj, hmem⟩ := List.mem_flatMap.mp ht
    obtain ⟨ki, hki, heq⟩ := List.mem_map.mp hmem
    exact ⟨ki, kj, List.mem_range.mp hki, List.mem_range.mp hkj, heq.symm⟩
  · rintro ⟨ki, kj, hki, hkj, rfl⟩
    rw [show generate_tiles level
        = ((List.range (grid_for_level level).height.toNat).flatMap fun (kj : Nat) =>
            (List.range (grid_for_level level).width.toNat).map fun (ki : Nat) =>
              tileAt (grid_for_level level) level
                ((grid_for_level level).min_i + ki)
                ((grid_for_level level).min_j + kj)).mergeSort
            (fun a b => a.hilbert_distance ≤ b.hilbert_distance) from rfl,
      List.mem_mergeSort]
    exact List.mem_flatMap.mpr
      ⟨kj, List.mem_range.mpr hkj, List.mem_map.mpr ⟨ki, List.mem_range.mpr hki, rfl⟩⟩

theorem to_base36_upper_fixed (n : Nat) : (to_base36 n).flatMap pyUpper = to_base36 n :=
  flatMap_eq_self_of _ _ (fun c hc => alphabet_upper_fixed c (to_base36_mem_alphabet n c hc))

/-- Core inversion lemma: resolving the identifier of a generated cell
returns exactly that cell's tile. -/
theorem tile_from_id_tileAt (level : Nat) (ki kj : Nat)
    (hki : ki < (grid_for_level level).width.toNat)
    (hkj : kj < (grid_for_level level).height.toNat) :
    tile_from_id level
        (tileAt (grid_for_level level) level
          ((grid_for_level level).min_i + ki) ((grid_for_level level).min_j + kj)).tile_id
      = .ok (tileAt (grid_for_level level) level
          ((grid_for_level level).min_i + ki) ((grid_for_level level).min_j + kj)) := by
  set g := grid_for_level level with hg
  have hw2 : g.width.toNat ≤ 2 ^ g.hilbert_order := (dims_le_two_pow_order g).1
  have hh2 : g.height.toNat ≤ 2 ^ g.hilbert_order := (dims_le_two_pow_order g).2
  have hD : (tileAt g level (g.min_i + ki) (g.min_j + kj)).hilbert_distance
      = xy2d g.hilbert_order (ki, kj) := by
    rw [tileAt_hilbert_distance, add_sub_cancel_toNat, add_sub_cancel_toNat]
  have hid : (tileAt g level (g.min_i + ki) (g.min_j + kj)).tile_id
      = to_base36 (xy2d g.hilbert_order (ki, kj)) := by
    rw [tileAt_tile_id, add_sub_cancel_toNat, add_sub_cancel_toNat]
  have hD4 : xy2d g.hilbert_order (ki, kj) < 4 ^ g.hilbert_order :=
    xy2d_lt _ ki kj (lt_of_lt_of_le hki hw2) (lt_of_lt_of_le hkj hh2)
  have hpt : d2xy g.hilbert_order (xy2d g.hilbert_order (ki, kj)) = (ki, kj) :=
    d2xy_xy2d _ ki kj (lt_of_lt_of_le hki hw2) (lt_of_lt_of_le hkj hh2)
  simp only [tile_from_id, hid, from_base36_to_base36]
  rw [if_neg (not_not_intro (by rw [two_pow_sq]; exact hD4)), hpt]
  rw [if_neg (show ¬ ((((ki, kj).1 : Nat) : Int) ≥ g.width
      ∨ (((ki, kj).2 : Nat) : Int) ≥ g.height) from by
    simp only [not_or, not_le]
    omega)]
  simp only [tileAt, Except.ok.injEq, Tile.mk.injEq, Prod.mk.injEq, add_sub_cancel_toNat,
    to_base36_upper_fixed]
  rw [← hg]
  refine ⟨trivial, trivial, ⟨?_, ?_, ?_, ?_⟩, ⟨?_, ?_⟩, ⟨?_, ?_⟩, trivial⟩ <;>
    (push_cast; ring)

/-- The generated sequence is sorted (non-decreasing) by Hilbert distance. -/
theorem generate_tiles_sorted (level : Nat) :
    (generate_tiles level).Pairwise
      (fun a b => a.hilbert_distance ≤ b.hilbert_distance) := by
  have htrans : ∀ a b c : Tile,
      decide (a.hilbert_distance ≤ b.hilbert_distance) →
      decide (b.hilbert_distance ≤ c.hilbert_distance) →
      decide (a.hilbert_distance ≤ c.hilbert_distance) := by
    intro a b c h1 h2
    simp only [decide_eq_true_eq] at *
    omega
  have htotal : ∀ a b : Tile,
      (decide (a.hilbert_distance ≤ b.hilbert_distance)
        || decide (b.hilbert_distance ≤ a.hilbert_distance)) = true := by
    intro a b
    rcases Nat.le_total a.hilbert_distance b.hilbert_distance with h | h <;> simp [h]
  have h := List.sorted_mergeSort htrans htotal
    ((List.range (grid_for_level level).height.toNat).flatMap fun (kj : Nat) =>
      (List.range (grid_for_level level).width.toNat).map fun (ki : Nat) =>
        tileAt (grid_for_level level) level
          ((grid_for_level level).min_i + ki) ((grid_for_level level).min_j + kj))
  exact h.imp (fun hab => by simpa using hab)

theorem length_flatMap_range {α : Type} (n w : Nat) (f : Nat → List α)
    (h : ∀ k, (f k).length = w) : ((List.range n).flatMap f).length = n * w := by
  induction n with
  | zero => simp
  | succ n ih =>
    rw [List.range_succ, List.flatMap_append, List.length_append, ih]
    simp [h n]
    ring

/-- The generated sequence has exactly `width × height` tiles. -/
theorem generate_tiles_length (level : Nat) :
    (generate_tiles level).length
      = (grid_for_level level).height.toNat * (grid_for_level level).width.toNat := by
  simp only [generate_tiles, List.length_mergeSort]
  exact length_flatMap_range _ _ _ (fun k => by simp)

/-- Distances of the generated tiles are pairwise distinct. -/
theorem generate_tiles_nodup_distances (level : Nat) :
    ((generate_tiles level).map Tile.hilbert_distance).Nodup := by
  set g := grid_for_level level with hg
  have hw2 : g.width.toNat ≤ 2 ^ g.hilbert_order := (dims_le_two_pow_order g).1
  have hh2 : g.height.toNat ≤ 2 ^ g.hilbert_order := (dims_le_two_pow_order g).2
  have hperm : List.Perm (generate_tiles level)
      ((List.range g.height.toNat).flatMap fun (kj : Nat) =>
        (List.range g.width.toNat).map fun (ki : Nat) =>
          tileAt g level (g.min_i + ki) (g.min_j + kj)) :=
    List.mergeSort_perm _ _
  rw [(hperm.map Tile.hilbert_distance).nodup_iff]
  rw [List.map_flatMap]
  rw [List.nodup_flatMap]
  constructor
  · intro kj hkj
    rw [List.map_map]
    refine (List.nodup_range _).map_on ?_
    intro ki hki ki2 hki2 heq
    simp only [Function.comp, tileAt_hilbert_distance, add_sub_cancel_toNat] at heq
    exact (xy2d_inj (lt_of_lt_of_le (List.mem_range.mp hki) hw2)
      (lt_of_lt_of_le (List.mem_range.mp hkj) hh2)
      (lt_of_lt_of_le (List.mem_range.mp hki2) hw2)
      (lt_of_lt_of_le (List.mem_range.mp hkj) hh2) heq).1
  · refine List.Pairwise.imp_of_mem ?_ (List.nodup_range _)
    intro kj kj2 hkj hkj2 hne
    simp only [Function.onFun]
    intro d hd hd2
    rw [List.map_map, List.mem_map] at hd hd2
    obtain ⟨ki, hki, hdeq⟩ := hd
    obtain ⟨ki2, hki2, hdeq2⟩ := hd2
    rw [← hdeq2] at hdeq
    simp only [Function.comp, tileAt_hilbert_distance, add_sub_cancel_toNat] at hdeq
    exact hne (xy2d_inj
      (lt_of_lt_of_le (List.mem_range.mp hki) hw2)
      (lt_of_lt_of_le (List.mem_range.mp hkj) hh2)
      (lt_of_lt_of_le (List.mem_range.mp hki2) hw2)
      (lt_of_lt_of_le (List.mem_range.mp hkj2) hh2) hdeq).2

/-- Identifiers of the generated tiles are pairwise distinct. -/
theorem generate_tiles_nodup_ids (level : Nat) :
    ((generate_tiles level).map Tile.tile_id).Nodup := by
  have hcongr : (generate_tiles level).map Tile.tile_id
      = ((generate_tiles level).map Tile.hilbert_distance).map to_base36 := by
    rw [List.map_map]
    refine List.map_congr_left ?_
    intro t ht
    obtain ⟨ki, kj, hki, hkj, rfl⟩ := (mem_generate_tiles_iff level t).mp ht
    simp [Function.comp, tileAt_tile_id, tileAt_hilbert_distance]
  rw [hcongr]
  exact (generate_tiles_nodup_distances level).map to_base36_inj

/-- The grid record carries the level's tile size. -/
theorem grid_tile_size (level : Nat) : (grid_for_level level).tile_size = tileSizeQ level := rfl

/-- Resolving the planar center of a generated cell's tile returns exactly
that tile (the engine side of spec §8 "Coordinate consistency"). -/
theorem tile_for_coordinates_tileAt (level : Nat) (ki kj : Nat)
    (hki : ki < (grid_for_level level).width.toNat)
    (hkj : kj < (grid_for_level level).height.toNat) :
    tile_for_coordinates level
        (tileAt (grid_for_level level) level
          ((grid_for_level level).min_i + ki) ((grid_for_level level).min_j + kj)).center.1
        (tileAt (grid_for_level level) level
          ((grid_for_level level).min_i + ki) ((grid_for_level level).min_j + kj)).center.2
      = .ok (tileAt (grid_for_level level) level
          ((grid_for_level level).min_i + ki) ((grid_for_level level).min_j + kj)) := by
  have htspos : 0 < tileSizeQ level := tileSizeQ_pos level
  have htsne : tileSizeQ level ≠ 0 := ne_of_gt htspos
  have hfloor : ∀ c : ℚ, ∀ i : Int,
      ⌊((c - tileSizeQ level / 2 + i * tileSizeQ level
          + (c - tileSizeQ level / 2 + i * tileSizeQ level + tileSizeQ level)) / 2
        - (c - tileSizeQ level / 2)) / tileSizeQ level⌋ = i := by
    intro c i
    have harg : ((c - tileSizeQ level / 2 + i * tileSizeQ level
          + (c - tileSizeQ level / 2 + i * tileSizeQ level + tileSizeQ level)) / 2
        - (c - tileSizeQ level / 2)) / tileSizeQ level = (i : ℚ) + 1 / 2 := by
      field_simp
      ring
    rw [harg, Int.floor_int_add]
    norm_num
  simp only [tile_for_coordinates, Tile.center, tileAt_bbox, grid_tile_size]
  rw [hfloor MARCO_ZERO_X ((grid_for_level level).min_i + ki),
    hfloor MARCO_ZERO_Y ((grid_for_level level).min_j + kj)]
  rw [if_neg (show ¬ ((grid_for_level level).min_i + (ki : Int) - (grid_for_level level).min_i < 0
      ∨ (grid_for_level level).min_j + (kj : Int) - (grid_for_level level).min_j < 0
      ∨ (grid_for_level level).min_i + (ki : Int) - (grid_for_level level).min_i
          ≥ (grid_for_level level).width
      ∨ (grid_for_level level).min_j + (kj : Int) - (grid_for_level level).min_j
          ≥ (grid_for_level level).height)
    from by
      simp only [not_or, not_lt, not_le]
      omega)]
  simp only [tileAt, Except.ok.injEq, Tile.mk.injEq, Prod.mk.injEq, add_sub_cancel_toNat,
    grid_tile_size]

/-- Full case analysis of `tile_from_id` after a successful decode
(spec §4.5 resolveById / §8 boundary rejection). -/
theorem tile_from_id_cases (level : Nat) (s : List Char) (d : Nat)
    (hfb : from_base36 s = .ok d) :
    (¬ d < (2 ^ (grid_for_level level).hilbert_order) ^ 2
        → tile_from_id level s = .error .identifierOutOfRange)
    ∧ (d < (2 ^ (grid_for_level level).hilbert_order) ^ 2
        → (((d2xy (grid_for_level level).hilbert_order d).1 : Int) ≥ (grid_for_level level).width
            ∨ ((d2xy (grid_for_level level).hilbert_order d).2 : Int)
                ≥ (grid_for_level level).height)
        → tile_from_id level s = .error .unmappedTile)
    ∧ (d < (2 ^ (grid_for_level level).hilbert_order) ^ 2
        → ((d2xy (grid_for_level level).hilbert_order d).1 : Int) < (grid_for_level level).width
        → ((d2xy (grid_for_level level).hilbert_order d).2 : Int) < (grid_for_level level).height
        → ∃ t : Tile, tile_from_id level s = .ok t) := by
  refine ⟨?_, ?_, ?_⟩
  · intro h1
    simp only [tile_from_id, hfb]
    rw [if_pos h1]
  · intro h1 h2
    simp only [tile_from_id, hfb]
    rw [if_neg (not_not_intro h1), if_pos h2]
  · intro h1 h2 h3
    simp only [tile_from_id, hfb]
    rw [if_neg (not_not_intro h1), if_neg (show ¬ _ from by
      simp only [not_or, not_le]
      exact ⟨h2, h3⟩)]
    exact ⟨_, rfl⟩

/-- Invariants of any tile returned by `tile_from_id` (spec §3). -/
theorem tile_from_id_ok_inv (level : Nat) (s : List Char) (t : Tile)
    (h : tile_from_id level s = .ok t) :
    0 ≤ t.normalized_coords.1 ∧ t.normalized_coords.1 < (grid_for_level level).width
    ∧ 0 ≤ t.normalized_coords.2 ∧ t.normalized_coords.2 < (grid_for_level level).height
    ∧ t.hilbert_distance < (2 ^ (grid_for_level level).hilbert_order) ^ 2 := by
  cases hfb : from_base36 s with
  | error e =>
    simp [tile_from_id, hfb] at h
  | ok d =>
    simp only [tile_from_id, hfb] at h
    split at h
    · simp at h
    · split at h
      · simp at h
      · rename_i h1 h2
        rw [Except.ok.injEq] at h
        subst h
        dsimp only
        simp only [not_or, not_le] at h2
        simp only [not_not] at h1
        refine ⟨by omega, by omega, by omega, by omega, h1⟩

/-- Invariants of any tile returned by `tile_for_coordinates` (spec §3),
including the curve-distance bound. -/
theorem tile_for_coordinates_ok_inv (level : Nat) (e n : ℚ) (t : Tile)
    (h : tile_for_coordinates level e n = .ok t) :
    0 ≤ t.normalized_coords.1 ∧ t.normalized_coords.1 < (grid_for_level level).width
    ∧ 0 ≤ t.normalized_coords.2 ∧ t.normalized_coords.2 < (grid_for_level level).height
    ∧ t.hilbert_distance < (2 ^ (grid_for_level level).hilbert_order) ^ 2 := by
  have hw2 : (grid_for_level level).width.toNat ≤ 2 ^ (grid_for_level level).hilbert_order :=
    (dims_le_two_pow_order _).1
  have hh2 : (grid_for_level level).height.toNat ≤ 2 ^ (grid_for_level level).hilbert_order :=
    (dims_le_two_pow_order _).2
  revert h
  simp only [tile_for_coordinates]
  split
  · intro h
    simp at h
  · rename_i hcond
    intro h
    rw [Except.ok.injEq] at h
    subst h
    simp only [not_or, not_lt, not_le] at hcond
    obtain ⟨hc1, hc2, hc3, hc4⟩ := hcond
    refine ⟨by simpa using hc1, by simpa using hc3, by simpa using hc2,
      by simpa using hc4, ?_⟩
    rw [show (2 ^ (grid_for_level level).hilbert_order) ^ 2
      = 4 ^ (grid_for_level level).hilbert_order from two_pow_sq _]
    exact xy2d_lt _ _ _ (by omega) (by omega)

/-- Invariants of any generated tile (spec §3). -/
theorem generate_tiles_mem_inv (level : Nat) (t : Tile) (h : t ∈ generate_tiles level) :
    0 ≤ t.normalized_coords.1 ∧ t.normalized_coords.1 < (grid_for_level level).width
    ∧ 0 ≤ t.normalized_coords.2 ∧ t.normalized_coords.2 < (grid_for_level level).height
    ∧ t.hilbert_distance < (2 ^ (grid_for_level level).hilbert_order) ^ 2 := by
  have hw2 : (grid_for_level level).width.toNat ≤ 2 ^ (grid_for_level level).hilbert_order :=
    (dims_le_two_pow_order _).1
  have hh2 : (grid_for_level level).height.toNat ≤ 2 ^ (grid_for_level level).hilbert_order :=
    (dims_le_two_pow_order _).2
  obtain ⟨ki, kj, hki, hkj, rfl⟩ := (mem_generate_tiles_iff level t).mp h
  rw [tileAt_normalized_coords, tileAt_hilbert_distance]
  refine ⟨by simp, by omega, by simp, by omega, ?_⟩
  rw [add_sub_cancel_toNat, add_sub_cancel_toNat, two_pow_sq]
  exact xy2d_lt _ _ _ (by omega) (by omega)

/-! ## Strip and upper-case interaction (for identifier canonicalization) -/

theorem char_toNat_ofNat {n : Nat} (h : n.isValidChar) : (Char.ofNat n).toNat = n := by
  unfold Char.ofNat
  rw [dif_pos h]
  rfl

theorem upperLookup_eq_some : ∀ (n : Nat) (l : List (Nat × List Nat)) (v : List Nat),
    upperLookup n l = some v → ∃ p ∈ l, p.1 = n ∧ p.2 = v
  | n, [], v => by simp [upperLookup]
  | n, p :: rest, v => by
    simp only [upperLookup]
    split
    · rename_i hn
      intro hv
      exact ⟨p, List.mem_cons_self p rest, hn.symm, (Option.some.injEq _ _).mp hv⟩
    · intro hv
      obtain ⟨q, hq, hq1, hq2⟩ := upperLookup_eq_some n rest v hv
      exact ⟨q, List.mem_cons_of_mem p hq, hq1, hq2⟩

/-- No code point the upper-case table maps is whitespace. -/
theorem upperTable_keys_not_ws :
    upperTable.all (fun p => !(pyWhitespace.contains p.1)) = true := by decide

/-- Every upper-case image in the table is non-empty and consists of valid,
non-whitespace code points. -/
theorem upperTable_values_ok :
    upperTable.all (fun p => !p.2.isEmpty
      && p.2.all (fun d => !(pyWhitespace.contains d) && decide (Nat.isValidChar d))) = true := by
  decide

/-- Python `str.upper()` fixes every whitespace character. -/
theorem ws_pyUpper {c : Char} (h : isPySpace c = true) : pyUpper c = [c] := by
  unfold pyUpper
  cases hl : upperLookup c.toNat upperTable with
  | none => rfl
  | some v =>
    exfalso
    obtain ⟨p, hp, hp1, _⟩ := upperLookup_eq_some _ _ _ hl
    have hkeys := upperTable_keys_not_ws
    rw [List.all_eq_true] at hkeys
    have hpk := hkeys p hp
    rw [hp1] at hpk
    simp only [isPySpace] at h
    rw [h] at hpk
    simp at hpk

theorem pyUpper_ne_nil (c : Char) : pyUpper c ≠ [] := by
  unfold pyUpper
  cases hl : upperLookup c.toNat upperTable with
  | none => simp
  | some v =>
    obtain ⟨p, hp, _, hp2⟩ := upperLookup_eq_some _ _ _ hl
    have hvals := upperTable_values_ok
    rw [List.all_eq_true] at hvals
    have hpv := hvals p hp
    rw [Bool.and_eq_true] at hpv
    have hvne : v ≠ [] := by
      rw [← hp2]
      intro h0
      rw [h0] at hpv
      simp at hpv
    simpa using hvne

/-- The characters of the upper-case form of a non-whitespace character are
all non-whitespace. -/
theorem pyUpper_not_ws {c : Char} (h : isPySpace c = false) :
    ∀ d ∈ pyUpper c, isPySpace d = false := by
  unfold pyUpper
  cases hl : upperLookup c.toNat upperTable with
  | none =>
    intro d hd
    rw [List.mem_singleton] at hd
    subst hd
    exact h
  | some v =>
    intro d hd
    obtain ⟨k, hk, rfl⟩ := List.mem_map.mp hd
    obtain ⟨p, hp, _, hp2⟩ := upperLookup_eq_some _ _ _ hl
    have hvals := upperTable_values_ok
    rw [List.all_eq_true] at hvals
    have hpv := hvals p hp
    rw [Bool.and_eq_true] at hpv
    have hall := hpv.2
    rw [List.all_eq_true] at hall
    have hkk := hall k (by rw [hp2]; exact hk)
    rw [Bool.and_eq_true, decide_eq_true_eq] at hkk
    simp only [isPySpace, char_toNat_ofNat hkk.2]
    simpa using hkk.1

/-- `dropWhile` of whitespace commutes with any per-character expansion that
fixes whitespace characters and sends non-whitespace characters to non-empty
blocks of non-whitespace characters. -/
theorem dropWhile_flatMap_of (u : Char → List Char)
    (hws : ∀ c, isPySpace c = true → u c = [c])
    (hnw : ∀ c, isPySpace c = false → u c ≠ [] ∧ ∀ d ∈ u c, isPySpace d = false) :
    ∀ l : List Char, (l.flatMap u).dropWhile isPySpace
      = (l.dropWhile isPySpace).flatMap u
  | [] => by simp
  | c :: t => by
    cases hc : isPySpace c with
    | true =>
      rw [List.flatMap_cons, hws c hc, List.singleton_append, List.dropWhile_cons,
        List.dropWhile_cons, hc]
      simp only [if_true]
      exact dropWhile_flatMap_of u hws hnw t
    | false =>
      obtain ⟨hne, hall⟩ := hnw c hc
      obtain ⟨d, ds, hd⟩ : ∃ d ds, u c = d :: ds := by
        cases hu : u c with
        | nil => exact absurd hu hne
        | cons d ds => exact ⟨d, ds, rfl⟩
      have hdws : isPySpace d = false := hall d (by rw [hd]; exact List.mem_cons_self d ds)
      rw [List.flatMap_cons, List.dropWhile_cons, hc, if_neg (by simp), hd,
        List.cons_append, List.dropWhile_cons, hdws]
      simp only [Bool.false_eq_true, if_false]
      rw [List.flatMap_cons, hd, List.cons_append]

/-- Python `str.strip()` commutes with Python `str.upper()`. -/
theorem pyStrip_flatMap_upper (l : List Char) :
    pyStrip (l.flatMap pyUpper) = (pyStrip l).flatMap pyUpper := by
  have hws : ∀ c, isPySpace c = true → pyUpper c = [c] := fun c hc => ws_pyUpper hc
  have hnw : ∀ c, isPySpace c = false →
      pyUpper c ≠ [] ∧ ∀ d ∈ pyUpper c, isPySpace d = false :=
    fun c hc => ⟨pyUpper_ne_nil c, pyUpper_not_ws hc⟩
  have hws2 : ∀ c, isPySpace c = true → (List.reverse ∘ pyUpper) c = [c] := by
    intro c hc
    simp only [Function.comp_apply, ws_pyUpper hc, List.reverse_singleton]
  have hnw2 : ∀ c, isPySpace c = false →
      (List.reverse ∘ pyUpper) c ≠ [] ∧ ∀ d ∈ (List.reverse ∘ pyUpper) c, isPySpace d = false := by
    intro c hc
    simp only [Function.comp_apply]
    refine ⟨fun h0 => pyUpper_ne_nil c ?_, ?_⟩
    · have := congrArg List.reverse h0
      simpa using this
    · intro d hd
      exact pyUpper_not_ws hc d (List.mem_reverse.mp hd)
  unfold pyStrip
  rw [dropWhile_flatMap_of pyUpper hws hnw l, List.reverse_flatMap,
    dropWhile_flatMap_of (List.reverse ∘ pyUpper) hws2 hnw2, List.reverse_flatMap]
  simp only [Function.comp_def, List.reverse_reverse]

/-- Every character of a string is a character of its stripped form or
whitespace. -/
theorem mem_pyStrip_or_ws (l : List Char) (c : Char) (hc : c ∈ l) :
    c ∈ pyStrip l ∨ isPySpace c = true := by
  have h1 : c ∈ l.takeWhile isPySpace ++ l.dropWhile isPySpace := by
    rw [List.takeWhile_append_dropWhile]
    exact hc
  rcases List.mem_append.mp h1 with htk | hdp
  · exact Or.inr (List.mem_takeWhile_imp htk)
  · have h2 : c ∈ (l.dropWhile isPySpace).reverse := List.mem_reverse.mpr hdp
    have h3 : c ∈ ((l.dropWhile isPySpace).reverse).takeWhile isPySpace
        ++ ((l.dropWhile isPySpace).reverse).dropWhile isPySpace := by
      rw [List.takeWhile_append_dropWhile]
      exact h2
    rcases List.mem_append.mp h3 with htk2 | hdp2
    · exact Or.inr (List.mem_takeWhile_imp htk2)
    · exact Or.inl (by unfold pyStrip; exact List.mem_reverse.mpr hdp2)

/-- After a successful decode, every character of the stripped, uppercased
input is in the base-36 alphabet. -/
theorem from_base36_ok_chars (s : List Char) (n : Nat) (h : from_base36 s = .ok n) :
    ∀ c ∈ (pyStrip s).flatMap pyUpper, c ∈ _BASE36_ALPHABET := by
  intro c hc
  by_contra hmem
  have hs_ne : s ≠ [] := by
    intro h0
    subst h0
    simp [from_base36] at h
  have hany : ((pyStrip s).flatMap pyUpper).any
      (fun c => !(_BASE36_ALPHABET.contains c)) = true := by
    rw [List.any_eq_true]
    refine ⟨c, hc, ?_⟩
    cases hcon : _BASE36_ALPHABET.contains c
    · rfl
    · exact absurd (contains_iff_mem.mp hcon) hmem
  have herr : from_base36 s = .error .invalidInput := by
    simp only [from_base36, if_neg hs_ne]
    rw [if_pos hany]
  rw [herr] at h
  exact absurd h (by simp)

/-- After a successful decode, `str.upper()` fixes every character of the
uppercased raw input (its characters are whitespace or alphabet). -/
theorem accepted_upper_fixed (s : List Char) (n : Nat) (h : from_base36 s = .ok n) :
    ∀ d ∈ s.flatMap pyUpper, pyUpper d = [d] := by
  intro d hd
  obtain ⟨c, hcs, hdc⟩ := List.mem_flatMap.mp hd
  rcases mem_pyStrip_or_ws s c hcs with hstrip | hws
  · have hmem : d ∈ (pyStrip s).flatMap pyUpper := List.mem_flatMap.mpr ⟨c, hstrip, hdc⟩
    exact alphabet_upper_fixed d (from_base36_ok_chars s n h d hmem)
  · rw [ws_pyUpper hws, List.mem_singleton] at hdc
    subst hdc
    exact ws_pyUpper hws

/-- Decoding is invariant under pre-stripping and pre-uppercasing the input,
as long as the stripped input is still nonempty. -/
theorem from_base36_pyStrip_pyUpper (s : List Char) (n : Nat)
    (h : from_base36 s = .ok n) (hne : pyStrip (s.flatMap pyUpper) ≠ []) :
    from_base36 (pyStrip (s.flatMap pyUpper)) = .ok n := by
  have hchars := from_base36_ok_chars s n h
  have hcomm : pyStrip (s.flatMap pyUpper) = (pyStrip s).flatMap pyUpper :=
    pyStrip_flatMap_upper s
  have hs_ne : s ≠ [] := by
    intro h0
    subst h0
    simp [from_base36] at h
  have hstrip_w : pyStrip ((pyStrip s).flatMap pyUpper) = (pyStrip s).flatMap pyUpper :=
    pyStrip_eq_self_of _ (fun c hc => alphabet_not_space c (hchars c hc))
  have hflat_w : ((pyStrip s).flatMap pyUpper).flatMap pyUpper
      = (pyStrip s).flatMap pyUpper :=
    flatMap_eq_self_of _ _ (fun c hc => alphabet_upper_fixed c (hchars c hc))
  revert h
  simp only [from_base36, if_neg hs_ne, if_neg hne]
  rw [hcomm, hstrip_w, hflat_w]
  exact fun h => h

/-- Resolving a stripped, uppercased identifier yields the same tile up to
the stored identifier text, which is `upper(s)` for the raw input. -/
theorem tile_from_id_strip_upper (level : Nat) (s : List Char) (t : Tile)
    (h : tile_from_id level s = .ok t) (hne : pyStrip (s.flatMap pyUpper) ≠ []) :
    tile_from_id level (pyStrip (s.flatMap pyUpper))
        = .ok { t with tile_id := pyStrip (s.flatMap pyUpper) }
      ∧ t.tile_id = s.flatMap pyUpper := by
  cases hfb : from_base36 s with
  | error e => simp [tile_from_id, hfb] at h
  | ok d =>
    have hfb2 : from_base36 (pyStrip (s.flatMap pyUpper)) = .ok d :=
      from_base36_pyStrip_pyUpper s d hfb hne
    simp only [tile_from_id, hfb] at h
    simp only [tile_from_id, hfb2]
    split at h
    · simp at h
    · split at h
      · simp at h
      · rename_i h1 h2
        rw [Except.ok.injEq] at h
        subst h
        rw [if_neg h1, if_neg h2]
        have hfix : (pyStrip (s.flatMap pyUpper)).flatMap pyUpper
            = pyStrip (s.flatMap pyUpper) := by
          rw [pyStrip_flatMap_upper]
          exact flatMap_eq_self_of _ _
            (fun c hc => alphabet_upper_fixed c (from_base36_ok_chars s d hfb c hc))
        refine ⟨?_, rfl⟩
        rw [Except.ok.injEq]
        simp [hfix]

/-! ## Level geometry values (spec §4.2) -/

theorem tileSizeQ_unclamped (level : Nat) (h : level ≤ 16) :
    tileSizeQ level = 100000 / 2 ^ level := by
  have hpow : (0 : ℚ) < 2 ^ level := by positivity
  have hle : (2 : ℚ) ^ level ≤ 100000 := by
    calc (2 : ℚ) ^ level ≤ 2 ^ 16 := by
          exact pow_le_pow_right₀ (by norm_num) h
      _ ≤ 100000 := by norm_num
  simp only [tileSizeQ]
  rw [if_pos (by rw [ge_iff_le, one_le_div hpow]; exact hle)]

theorem tileSizeQ_clamped (level : Nat) (h : 17 ≤ level) : tileSizeQ level = 1 := by
  have hpow : (0 : ℚ) < 2 ^ level := by positivity
  have hgt : (100000 : ℚ) < 2 ^ level := by
    calc (100000 : ℚ) < 2 ^ 17 := by norm_num
      _ ≤ 2 ^ level := by exact pow_le_pow_right₀ (by norm_num) h
  simp only [tileSizeQ]
  rw [if_neg (by rw [ge_iff_le, one_le_div hpow]; exact not_le.mpr hgt)]

/-! ## Concrete level-0 grid -/

theorem grid_for_level_zero : grid_for_level 0
    = { level := 0, tile_size := 100000, min_i := -27, min_j := -37, max_i := 23, max_j := 23 } := by
  have hts : tileSizeQ 0 = 100000 := by norm_num [tileSizeQ]
  have hc1 : (⌈((7330000 : ℚ) - (5000000 - 100000 / 2)) / 100000⌉ : ℤ) = 24 := by
    rw [Int.ceil_eq_iff] ; norm_num
  have hc2 : (⌈((12300000 : ℚ) - (10000000 - 100000 / 2)) / 100000⌉ : ℤ) = 24 := by
    rw [Int.ceil_eq_iff] ; norm_num
  simp only [grid_for_level, hts, MARCO_ZERO_X, MARCO_ZERO_Y, X_MIN_AREA, Y_MIN_AREA,
    X_MAX_AREA, Y_MAX_AREA, TileGrid.mk.injEq, hc1, hc2]
  norm_num

theorem grid0_width_toNat : (grid_for_level 0).width.toNat = 51 := by
  rw [grid_for_level_zero]
  decide

theorem grid0_height_toNat : (grid_for_level 0).height.toNat = 61 := by
  rw [grid_for_level_zero]
  decide

theorem grid0_order : (grid_for_level 0).hilbert_order = 6 := by
  rw [grid_for_level_zero]
  decide

/-- The identifier stored by a successful `tile_from_id` is the uppercased
raw input. -/
theorem tile_from_id_ok_tile_id (level : Nat) (s : List Char) (t : Tile)
    (h : tile_from_id level s = .ok t) : t.tile_id = s.flatMap pyUpper := by
  cases hfb : from_base36 s with
  | error e => simp [tile_from_id, hfb] at h
  | ok d =>
    simp only [tile_from_id, hfb] at h
    split at h
    · simp at h
    · split at h
      · simp at h
      · rw [Except.ok.injEq] at h
        subst h
        rfl

/-- Concrete evaluation of `tile_from_id` at level 0 on identifiers that
decode to distance 0. -/
theorem tile_from_id_zero_eval (s : List Char) (h : from_base36 s = .ok 0) :
    tile_from_id 0 s
      = .ok { tile_id := s.flatMap pyUpper, level := 0,
              bbox := (2250000, 6250000, 2350000, 6350000),
              grid_coords := (-27, -37), normalized_coords := (0, 0),
              hilbert_distance := 0 } := by
  have horder : ({ level := 0, tile_size := 100000, min_i := -27, min_j := -37, max_i := 23, max_j := 23 } : TileGrid).hilbert_order = 6 := by decide
  have hw : ({ level := 0, tile_size := 100000, min_i := -27, min_j := -37, max_i := 23, max_j := 23 } : TileGrid).width = 51 := by decide
  have hh : ({ level := 0, tile_size := 100000, min_i := -27, min_j := -37, max_i := 23, max_j := 23 } : TileGrid).height = 61 := by decide
  simp only [tile_from_id, h, grid_for_level_zero, horder, hw, hh]
  rw [if_neg (by norm_num)]
  rw [show d2xy 6 0 = (0, 0) from by decide]
  rw [if_neg (by norm_num)]
  rw [Except.ok.injEq]
  simp only [Tile.mk.injEq, Prod.mk.injEq, MARCO_ZERO_X, MARCO_ZERO_Y]
  norm_num

/-! ## Claims -/

/-- C1: for every non-negative level and every tile in the sequence returned
by `generate_tiles`, `tile_from_id` on its identifier succeeds and returns a
tile equal to it in every field (identifier, level, bounding box, grid cell,
normalized cell and curve distance). -/
theorem claim_C1_roundtrip (level : Nat) (t : Tile) (h : t ∈ generate_tiles level) :
    tile_from_id level t.tile_id = .ok t := by
  obtain ⟨ki, kj, hki, hkj, rfl⟩ := (mem_generate_tiles_iff level t).mp h
  exact tile_from_id_tileAt level ki kj hki hkj

/-- Witness for C1 at level 0 and the grid cell holding the origin marker. -/
theorem claim_C1_roundtrip_witness :
    tileAt (grid_for_level 0) 0
        ((grid_for_level 0).min_i + (27 : Nat)) ((grid_for_level 0).min_j + (37 : Nat))
      ∈ generate_tiles 0
    ∧ tile_from_id 0
        (tileAt (grid_for_level 0) 0
          ((grid_for_level 0).min_i + (27 : Nat)) ((grid_for_level 0).min_j + (37 : Nat))).tile_id
      = .ok (tileAt (grid_for_level 0) 0
          ((grid_for_level 0).min_i + (27 : Nat)) ((grid_for_level 0).min_j + (37 : Nat))) := by
  have hmem : tileAt (grid_for_level 0) 0
      ((grid_for_level 0).min_i + (27 : Nat)) ((grid_for_level 0).min_j + (37 : Nat))
        ∈ generate_tiles 0 :=
    (mem_generate_tiles_iff 0 _).mpr
      ⟨27, 37, by simp [grid0_width_toNat], by simp [grid0_height_toNat], rfl⟩
  exact ⟨hmem, claim_C1_roundtrip 0 _ hmem⟩

/-- C2: for every non-negative level and every generated tile, resolving the
tile's planar center through `tile_for_coordinates` (the projection boundary
being exactly inverse per spec §6) succeeds and returns a tile with the same
identifier. -/
theorem claim_C2_center_consistency (level : Nat) (t : Tile) (h : t ∈ generate_tiles level) :
    ∃ t2 : Tile, tile_for_coordinates level t.center.1 t.center.2 = .ok t2
      ∧ t2.tile_id = t.tile_id := by
  obtain ⟨ki, kj, hki, hkj, rfl⟩ := (mem_generate_tiles_iff level t).mp h
  exact ⟨_, tile_for_coordinates_tileAt level ki kj hki hkj, rfl⟩

/-- Witness for C2 at level 0 and the grid cell holding the origin marker. -/
theorem claim_C2_center_consistency_witness :
    tileAt (grid_for_level 0) 0
        ((grid_for_level 0).min_i + (27 : Nat)) ((grid_for_level 0).min_j + (37 : Nat))
      ∈ generate_tiles 0
    ∧ ∃ t2 : Tile, tile_for_coordinates 0
          (tileAt (grid_for_level 0) 0
            ((grid_for_level 0).min_i + (27 : Nat)) ((grid_for_level 0).min_j + (37 : Nat))).center.1
          (tileAt (grid_for_level 0) 0
            ((grid_for_level 0).min_i + (27 : Nat)) ((grid_for_level 0).min_j + (37 : Nat))).center.2
        = .ok t2
      ∧ t2.tile_id = (tileAt (grid_for_level 0) 0
          ((grid_for_level 0).min_i + (27 : Nat)) ((grid_for_level 0).min_j + (37 : Nat))).tile_id := by
  have hmem : tileAt (grid_for_level 0) 0
      ((grid_for_level 0).min_i + (27 : Nat)) ((grid_for_level 0).min_j + (37 : Nat))
        ∈ generate_tiles 0 :=
    (mem_generate_tiles_iff 0 _).mpr
      ⟨27, 37, by simp [grid0_width_toNat], by simp [grid0_height_toNat], rfl⟩
  exact ⟨hmem, claim_C2_center_consistency 0 _ hmem⟩

/-- C3: after a successful decode, `tile_from_id` fails with
`identifierOutOfRange` exactly when the decoded value is outside
`[0, (2^p)^2)`, fails with `unmappedTile` when the value is in range but its
curve point lies outside the `width × height` rectangle, and resolves to a
tile in every other case. -/
theorem claim_C3_boundary_rejection (level : Nat) (s : List Char) (d : Nat)
    (hfb : from_base36 s = .ok d) :
    (¬ d < (2 ^ (grid_for_level level).hilbert_order) ^ 2
        → tile_from_id level s = .error .identifierOutOfRange)
    ∧ (d < (2 ^ (grid_for_level level).hilbert_order) ^ 2
        → (((d2xy (grid_for_level level).hilbert_order d).1 : Int) ≥ (grid_for_level level).width
            ∨ ((d2xy (grid_for_level level).hilbert_order d).2 : Int)
                ≥ (grid_for_level level).height)
        → tile_from_id level s = .error .unmappedTile)
    ∧ (d < (2 ^ (grid_for_level level).hilbert_order) ^ 2
        → ((d2xy (grid_for_level level).hilbert_order d).1 : Int) < (grid_for_level level).width
        → ((d2xy (grid_for_level level).hilbert_order d).2 : Int) < (grid_for_level level).height
        → ∃ t : Tile, tile_from_id level s = .ok t) :=
  tile_from_id_cases level s d hfb

/-- Witness for C3: identifier "35S" decodes to 4096 = (2^6)^2, one past the
level-0 range, and is rejected as out of range. -/
theorem claim_C3_boundary_rejection_witness :
    from_base36 ['3', '5', 'S'] = .ok 4096
    ∧ tile_from_id 0 ['3', '5', 'S'] = .error .identifierOutOfRange := by
  have hfb : from_base36 ['3', '5', 'S'] = .ok 4096 := by decide
  exact ⟨hfb, (claim_C3_boundary_rejection 0 ['3', '5', 'S'] 4096 hfb).1
    (by simp [grid0_order])⟩

/-- C4: the base-36 codec round trip recovers every non-negative integer, and
0 encodes to the single character string "0". -/
theorem claim_C4_codec_roundtrip :
    (∀ n : Nat, from_base36 (to_base36 n) = .ok n) ∧ to_base36 0 = ['0'] :=
  ⟨from_base36_to_base36, rfl⟩

/-- C5 counterexample: the whitespace-only string " " is non-empty, so the
emptiness guard does not fire, and after stripping the digit loop runs over
an empty string: `from_base36` SUCCEEDS with value 0, while the claim
demands an `invalidInput` failure for every string that is empty after
trimming. -/
theorem claim_C5_counterexample : from_base36 [' '] = .ok 0 := by
  decide

/-- C5 (amended): `from_base36` fails with `invalidInput` exactly when the
raw string is empty (before trimming) or its stripped, uppercased form
contains a character outside the base-36 alphabet; on every other string it
succeeds (in particular, non-empty whitespace-only strings decode to 0). -/
theorem claim_C5_amended_decode_errors (value : List Char) :
    (from_base36 value = .error .invalidInput
        ↔ (value = [] ∨ ∃ c ∈ (pyStrip value).flatMap pyUpper, c ∉ _BASE36_ALPHABET))
    ∧ ((∃ n, from_base36 value = .ok n)
        ↔ ¬ (value = [] ∨ ∃ c ∈ (pyStrip value).flatMap pyUpper, c ∉ _BASE36_ALPHABET)) := by
  by_cases h1 : value = []
  · subst h1
    constructor
    · simp [from_base36]
    · simp [from_base36]
  · by_cases h2 : ((pyStrip value).flatMap pyUpper).any (fun c => !(_BASE36_ALPHABET.contains c)) = true
    · have herr : from_base36 value = .error .invalidInput := by
        simp only [from_base36, if_neg h1]
        rw [if_pos h2]
      have hex : ∃ c ∈ (pyStrip value).flatMap pyUpper, c ∉ _BASE36_ALPHABET := by
        rw [List.any_eq_true] at h2
        obtain ⟨c, hc, hcc⟩ := h2
        refine ⟨c, hc, fun hmem => ?_⟩
        simp only [Bool.not_eq_true'] at hcc
        rw [contains_iff_mem.mpr hmem] at hcc
        cases hcc
      constructor
      · exact ⟨fun _ => Or.inr hex, fun _ => herr⟩
      · constructor
        · rintro ⟨n, hn⟩
          rw [herr] at hn
          exact absurd hn (by simp)
        · intro hcon
          exact absurd (Or.inr hex) hcon
    · have hok : from_base36 value
          = .ok (((pyStrip value).flatMap pyUpper).foldl
              (fun result c => result * 36 + _BASE36_ALPHABET.indexOf c) 0) := by
        simp only [from_base36, if_neg h1]
        rw [if_neg h2]
      have hnoex : ¬ ∃ c ∈ (pyStrip value).flatMap pyUpper, c ∉ _BASE36_ALPHABET := by
        rintro ⟨c, hc, hcmem⟩
        apply h2
        rw [List.any_eq_true]
        refine ⟨c, hc, ?_⟩
        simp only [Bool.not_eq_true']
        cases hcon : _BASE36_ALPHABET.contains c
        · rfl
        · exact absurd (contains_iff_mem.mp hcon) hcmem
      constructor
      · constructor
        · intro hcontra
          rw [hok] at hcontra
          exact absurd hcontra (by simp)
        · rintro (h | h)
          · exact absurd h h1
          · exact absurd h hnoex
      · constructor
        · intro _
          rintro (h | h)
          · exact absurd h h1
          · exact absurd h hnoex
        · intro _
          exact ⟨_, hok⟩

/-- C6 counterexample: resolving " 0 " succeeds, but the returned identifier
is " 0 " — uppercased yet NOT trimmed — so it differs from the Tile returned
for the trimmed identifier "0", and it carries surrounding whitespace,
contradicting the claim. -/
theorem claim_C6_counterexample :
    tile_from_id 0 [' ', '0', ' ']
        = .ok { tile_id := [' ', '0', ' '], level := 0,
                bbox := (2250000, 6250000, 2350000, 6350000),
                grid_coords := (-27, -37), normalized_coords := (0, 0),
                hilbert_distance := 0 }
    ∧ tile_from_id 0 ['0']
        = .ok { tile_id := ['0'], level := 0,
                bbox := (2250000, 6250000, 2350000, 6350000),
                grid_coords := (-27, -37), normalized_coords := (0, 0),
                hilbert_distance := 0 }
    ∧ tile_from_id 0 [' ', '0', ' '] ≠ tile_from_id 0 ['0'] := by
  have h1 := tile_from_id_zero_eval [' ', '0', ' '] (by decide)
  have h2 := tile_from_id_zero_eval ['0'] (by decide)
  rw [show [' ', '0', ' '].flatMap pyUpper = [' ', '0', ' '] from by decide] at h1
  rw [show ['0'].flatMap pyUpper = ['0'] from by decide] at h2
  refine ⟨h1, h2, ?_⟩
  rw [h1, h2]
  simp

/-- C6 (amended): the input is trimmed before decoding, but the returned
identifier is only uppercased, not trimmed: it equals `upper(s)` (hence is
fixed by further upper-casing — in particular carries no lowercase letters —
but keeps surrounding whitespace), and — provided the trimmed uppercased
input is non-empty — resolving `trim(upper(s))` returns the same Tile in
every field except the identifier, which is the trimmed form. -/
theorem claim_C6_amended_canonicalization (level : Nat) (s : List Char) (t : Tile)
    (h : tile_from_id level s = .ok t) :
    t.tile_id = s.flatMap pyUpper
    ∧ (∀ c ∈ t.tile_id, pyUpper c = [c])
    ∧ (pyStrip (s.flatMap pyUpper) ≠ [] →
        tile_from_id level (pyStrip (s.flatMap pyUpper))
          = .ok { t with tile_id := pyStrip (s.flatMap pyUpper) }) := by
  refine ⟨tile_from_id_ok_tile_id level s t h, ?_, ?_⟩
  · intro c hc
    rw [tile_from_id_ok_tile_id level s t h] at hc
    cases hfb : from_base36 s with
    | error e => simp [tile_from_id, hfb] at h
    | ok d => exact accepted_upper_fixed s d hfb c hc
  · intro hne
    exact (tile_from_id_strip_upper level s t h hne).1

/-- Witness for C6 (amended) at the input " 0 ". -/
theorem claim_C6_amended_canonicalization_witness :
    tile_from_id 0 [' ', '0', ' '] = .ok { tile_id := [' ', '0', ' '], level := 0, bbox := (2250000, 6250000, 2350000, 6350000), grid_coords := (-27, -37), normalized_coords := (0, 0), hilbert_distance := 0 }
    ∧ ({ tile_id := [' ', '0', ' '], level := 0, bbox := (2250000, 6250000, 2350000, 6350000), grid_coords := (-27, -37), normalized_coords := (0, 0), hilbert_distance := 0 } : Tile).tile_id = [' ', '0', ' '].flatMap pyUpper
    ∧ (∀ c ∈ ({ tile_id := [' ', '0', ' '], level := 0, bbox := (2250000, 6250000, 2350000, 6350000), grid_coords := (-27, -37), normalized_coords := (0, 0), hilbert_distance := 0 } : Tile).tile_id, pyUpper c = [c])
    ∧ (pyStrip ([' ', '0', ' '].flatMap pyUpper) ≠ [] →
        tile_from_id 0 (pyStrip ([' ', '0', ' '].flatMap pyUpper))
          = .ok { ({ tile_id := [' ', '0', ' '], level := 0, bbox := (2250000, 6250000, 2350000, 6350000), grid_coords := (-27, -37), normalized_coords := (0, 0), hilbert_distance := 0 } : Tile) with tile_id := pyStrip ([' ', '0', ' '].flatMap pyUpper) }) := by
  have h := tile_from_id_zero_eval [' ', '0', ' '] (by decide)
  rw [show [' ', '0', ' '].flatMap pyUpper = [' ', '0', ' '] from by decide] at h
  exact ⟨h, claim_C6_amended_canonicalization 0 [' ', '0', ' '] _ h⟩

/-- C7: `get_tile_size_from_level` rejects negative levels with
`invalidLevel`; for non-negative levels it returns `100000 / 2^level` while
that value is at least 1 and exactly 1 otherwise, so it strictly halves from
each level to the next up to the clamp point and is constantly 1 from level
17 on. -/
theorem claim_C7_tile_size :
    (∀ level : Int, level < 0 → get_tile_size_from_level level = .error .invalidLevel)
    ∧ (∀ level : Nat, 1 ≤ (100000 : ℚ) / 2 ^ level
        → get_tile_size_from_level level = .ok (100000 / 2 ^ level))
    ∧ (∀ level : Nat, ¬ 1 ≤ (100000 : ℚ) / 2 ^ level
        → get_tile_size_from_level level = .ok 1)
    ∧ (∀ level : Nat, level ≤ 15
        → tileSizeQ (level + 1) = tileSizeQ level / 2 ∧ tileSizeQ (level + 1) < tileSizeQ level)
    ∧ (∀ level : Nat, 17 ≤ level → get_tile_size_from_level level = .ok 1) := by
  have hval : ∀ level : Nat, get_tile_size_from_level level = .ok (tileSizeQ level) := by
    intro level
    simp [get_tile_size_from_level]
  refine ⟨?_, ?_, ?_, ?_, ?_⟩
  · intro level hneg
    simp [get_tile_size_from_level, hneg]
  · intro level hge
    rw [hval level]
    simp only [tileSizeQ]
    rw [if_pos hge]
  · intro level hlt
    rw [hval level]
    simp only [tileSizeQ]
    rw [if_neg hlt]
  · intro level hlev
    have e1 : tileSizeQ (level + 1) = 100000 / 2 ^ (level + 1) :=
      tileSizeQ_unclamped _ (by omega)
    have e2 : tileSizeQ level = 100000 / 2 ^ level := tileSizeQ_unclamped _ (by omega)
    have hhalf : tileSizeQ (level + 1) = tileSizeQ level / 2 := by
      rw [e1, e2, pow_succ]
      ring
    have hone : 1 ≤ tileSizeQ level := one_le_tileSizeQ level
    constructor
    · exact hhalf
    · rw [hhalf]
      linarith
  · intro level hlev
    rw [hval level, tileSizeQ_clamped level hlev]

/-- Witness for C7: level -1 is rejected, level 4 is unclamped, level 20 is
clamped to 1, and level 3 halves into level 4. -/
theorem claim_C7_tile_size_witness :
    ((-1 : Int) < 0 ∧ get_tile_size_from_level (-1) = .error .invalidLevel)
    ∧ (1 ≤ (100000 : ℚ) / 2 ^ (4 : Nat)
        ∧ get_tile_size_from_level (4 : Nat) = .ok (100000 / 2 ^ (4 : Nat)))
    ∧ ((17 : Nat) ≤ 20 ∧ get_tile_size_from_level (20 : Nat) = .ok 1)
    ∧ ((3 : Nat) ≤ 15 ∧ tileSizeQ 4 = tileSizeQ 3 / 2 ∧ tileSizeQ 4 < tileSizeQ 3) := by
  refine ⟨⟨by norm_num, claim_C7_tile_size.1 (-1) (by norm_num)⟩,
    ⟨by norm_num, claim_C7_tile_size.2.1 4 (by norm_num)⟩,
    ⟨by norm_num, claim_C7_tile_size.2.2.2.2 20 (by norm_num)⟩,
    ⟨by norm_num, claim_C7_tile_size.2.2.2.1 3 (by norm_num)⟩⟩

/-- C8: every generated level is sorted in non-decreasing curve distance and
has exactly width × height tiles, where width and height come from the grid
bounds formulas; with the fixed area constants the level-0 grid is 51 × 61,
level 0 has 51 × 61 tiles, and one of them has the origin marker inside its
bounding box. -/
theorem claim_C8_generation_shape :
    (∀ level : Nat,
        (generate_tiles level).Pairwise (fun a b => a.hilbert_distance ≤ b.hilbert_distance)
        ∧ (generate_tiles level).length
            = (grid_for_level level).width.toNat * (grid_for_level level).height.toNat)
    ∧ (grid_for_level 0).width.toNat = 51
    ∧ (grid_for_level 0).height.toNat = 61
    ∧ (generate_tiles 0).length = 51 * 61
    ∧ ∃ t ∈ generate_tiles 0,
        t.bbox.1 ≤ MARCO_ZERO_X ∧ MARCO_ZERO_X < t.bbox.2.2.1
        ∧ t.bbox.2.1 ≤ MARCO_ZERO_Y ∧ MARCO_ZERO_Y < t.bbox.2.2.2 := by
  refine ⟨fun level => ⟨generate_tiles_sorted level, by rw [generate_tiles_length]; ring⟩,
    grid0_width_toNat, grid0_height_toNat, ?_, ?_⟩
  · rw [generate_tiles_length, grid0_width_toNat, grid0_height_toNat]
  · refine ⟨tileAt (grid_for_level 0) 0
        ((grid_for_level 0).min_i + (27 : Nat)) ((grid_for_level 0).min_j + (37 : Nat)),
      (mem_generate_tiles_iff 0 _).mpr
        ⟨27, 37, by simp [grid0_width_toNat], by simp [grid0_height_toNat], rfl⟩, ?_⟩
    rw [tileAt_bbox, grid_for_level_zero]
    simp only [MARCO_ZERO_X, MARCO_ZERO_Y]
    norm_num

/-- C9: every tile returned by any of the three public operations has its
normalized cell inside `[0, width) × [0, height)` for the level's grid, and
its curve distance below `(2^p)^2` for the level's curve order `p`. -/
theorem claim_C9_tile_invariants :
    (∀ (level : Nat) (t : Tile), t ∈ generate_tiles level →
        0 ≤ t.normalized_coords.1 ∧ t.normalized_coords.1 < (grid_for_level level).width
        ∧ 0 ≤ t.normalized_coords.2 ∧ t.normalized_coords.2 < (grid_for_level level).height
        ∧ t.hilbert_distance < (2 ^ (grid_for_level level).hilbert_order) ^ 2)
    ∧ (∀ (level : Nat) (s : List Char) (t : Tile), tile_from_id level s = .ok t →
        0 ≤ t.normalized_coords.1 ∧ t.normalized_coords.1 < (grid_for_level level).width
        ∧ 0 ≤ t.normalized_coords.2 ∧ t.normalized_coords.2 < (grid_for_level level).height
        ∧ t.hilbert_distance < (2 ^ (grid_for_level level).hilbert_order) ^ 2)
    ∧ (∀ (level : Nat) (e n : ℚ) (t : Tile), tile_for_coordinates level e n = .ok t →
        0 ≤ t.normalized_coords.1 ∧ t.normalized_coords.1 < (grid_for_level level).width
        ∧ 0 ≤ t.normalized_coords.2 ∧ t.normalized_coords.2 < (grid_for_level level).height
        ∧ t.hilbert_distance < (2 ^ (grid_for_level level).hilbert_order) ^ 2) :=
  ⟨fun level t h => generate_tiles_mem_inv level t h,
   fun level s t h => tile_from_id_ok_inv level s t h,
   fun level e n t h => tile_for_coordinates_ok_inv level e n t h⟩

/-- Witness for C9 on a concrete generated tile at level 0. -/
theorem claim_C9_tile_invariants_witness :
    tileAt (grid_for_level 0) 0
        ((grid_for_level 0).min_i + (27 : Nat)) ((grid_for_level 0).min_j + (37 : Nat))
      ∈ generate_tiles 0
    ∧ (0 ≤ (tileAt (grid_for_level 0) 0
          ((grid_for_level 0).min_i + (27 : Nat)) ((grid_for_level 0).min_j + (37 : Nat))).normalized_coords.1
      ∧ (tileAt (grid_for_level 0) 0
          ((grid_for_level 0).min_i + (27 : Nat)) ((grid_for_level 0).min_j + (37 : Nat))).normalized_coords.1
            < (grid_for_level 0).width
      ∧ 0 ≤ (tileAt (grid_for_level 0) 0
          ((grid_for_level 0).min_i + (27 : Nat)) ((grid_for_level 0).min_j + (37 : Nat))).normalized_coords.2
      ∧ (tileAt (grid_for_level 0) 0
          ((grid_for_level 0).min_i + (27 : Nat)) ((grid_for_level 0).min_j + (37 : Nat))).normalized_coords.2
            < (grid_for_level 0).height
      ∧ (tileAt (grid_for_level 0) 0
          ((grid_for_level 0).min_i + (27 : Nat)) ((grid_for_level 0).min_j + (37 : Nat))).hilbert_distance
            < (2 ^ (grid_for_level 0).hilbert_order) ^ 2) := by
  have hmem : tileAt (grid_for_level 0) 0
      ((grid_for_level 0).min_i + (27 : Nat)) ((grid_for_level 0).min_j + (37 : Nat))
        ∈ generate_tiles 0 :=
    (mem_generate_tiles_iff 0 _).mpr
      ⟨27, 37, by simp [grid0_width_toNat], by simp [grid0_height_toNat], rfl⟩
  exact ⟨hmem, claim_C9_tile_invariants.1 0 _ hmem⟩

/-- C10: within one generated level, curve distances are pairwise distinct
and identifiers are pairwise distinct, so no two generated tiles share an
identifier. -/
theorem claim_C10_distinct_ids (level : Nat) :
    ((generate_tiles level).map Tile.hilbert_distance).Nodup
    ∧ ((generate_tiles level).map Tile.tile_id).Nodup :=
  ⟨generate_tiles_nodup_distances level, generate_tiles_nodup_ids level⟩

end CoordinatorBackend
